import Mathlib

/-
Verification of the spicy-uno rules engine.

The development shallowly embeds three parts of the repository:
  * the card/deck module (client/src/engine/CardDeck.ts),
  * the client game engine (client/src/engine/GameEngine.ts), and
  * the server engine and redaction layer (server/src/index.ts),
together with the scripted-opponent policy (client/src/ai/AIPlayer.ts).

Modelling conventions, used consistently below:
  * uuid identities are modelled as natural numbers allocated in creation
    order (uuids are opaque distinct tokens; nothing in the logic reads
    their text);
  * Math.random-driven choices are threaded explicitly: every shuffle takes
    an oracle (Nat -> Nat) giving the Fisher-Yates index choices, and the
    engine records how many shuffles have happened so far so that each
    shuffle consumes fresh oracle values;
  * Date.now() is modelled by an ambient clock value stored in the engine;
  * TypeScript code paths that dereference undefined (e.g. indexing with a
    -1 from findIndex after validation has already excluded that case) are
    modelled by returning the state unchanged; every such spot is marked
    with a comment.  One exception is handleAcceptOffer, where the source
    really can reach cardIndex = -1 and the JS semantics of
    slice(0, -1) / slice(0) matter; there the JS behaviour is modelled
    exactly (see the comment at that definition).
-/

namespace SpicyUno

/-- Card colors; wild is the colorless tag (game.types.ts CardColor). -/
inductive Color
  | red
  | yellow
  | green
  | blue
  | wild
deriving DecidableEq

/-- Card values: ranks 0-9, the three colored actions, and the two wild
values (game.types.ts CardValue). -/
inductive CardValue
  | num (n : Nat)
  | skip
  | reverse
  | draw2
  | wild
  | wildDraw4
deriving DecidableEq

/-- A card: identity token, color, value (game.types.ts Card). -/
structure Card where
  id : Nat
  color : Color
  value : CardValue
deriving DecidableEq

/-- A player.  Display name, liveness flag, avatar and the human/ai kind tag
are presentation-only fields never read by the transition logic modelled
here, so they are omitted. -/
structure Player where
  id : Nat
  hand : List Card
  hasCalledUno : Bool
deriving DecidableEq

/-- Game phases (game.types.ts GamePhase). -/
inductive Phase
  | waiting
  | playing
  | color_selection
  | slap_race
  | custom_rule_creation
  | card_request
  | offering_card
  | game_over
deriving DecidableEq

/-- Pending-action kinds (game.types.ts PendingActionType). -/
inductive PendingKind
  | draw_cards
  | slap
  | select_color
  | create_rule
  | card_request
  | offer_decision
deriving DecidableEq

/-- A pending sub-interaction; the TS interface has one record with all
fields optional, which is mirrored here. -/
structure PendingAction where
  kind : PendingKind
  targetPlayer : Option Nat := none
  requesterId : Option Nat := none
  amount : Option Nat := none
  deadline : Option Nat := none
  offeredCardId : Option Nat := none
  offererId : Option Nat := none
deriving DecidableEq

/-- Custom-rule kinds (game.types.ts CustomRuleType). -/
inductive CustomRuleKind
  | behavioral
  | speech
  | penalty
  | action
deriving DecidableEq

/-- A custom rule created during play. -/
structure CustomRule where
  id : Nat
  text : String
  kind : CustomRuleKind
  createdBy : Nat
  createdAt : Nat
deriving DecidableEq

/-- Action kinds accepted by the dispatcher (game.types.ts GameActionType). -/
inductive ActionType
  | play_card
  | draw_card
  | call_uno
  | catch_uno
  | slap
  | select_color
  | create_custom_rule
  | report_speaking
  | request_card
  | decline_request
  | offer_card
  | accept_offer
  | decline_offer
  | pass_turn
  | jump_in
deriving DecidableEq

/-- Payload of a create_custom_rule action. -/
structure CustomRulePayload where
  text : String
  kind : CustomRuleKind
deriving DecidableEq

/-- An inbound action message (game.types.ts GameAction). -/
structure GameAction where
  type : ActionType
  playerId : Nat
  cardId : Option Nat := none
  targetPlayerId : Option Nat := none
  wildColor : Option Color := none
  customRule : Option CustomRulePayload := none
  timestamp : Option Nat := none
deriving DecidableEq

/-- Which optional house rules are enabled (game.types.ts EnabledRules). -/
structure EnabledRules where
  silence : Bool
  customRule : Bool
  stackDraw : Bool
  stackSkip : Bool
  slap : Bool
  jumpIn : Bool
  unoCall : Bool
  offerCard : Bool
deriving DecidableEq

/-- Session configuration.  The client GameConfig carries a playerNames
list; only its length matters to the logic (player ids are allocated
sequentially), so the roster is modelled by its size. -/
structure GameConfig where
  playerCount : Nat
  enabledRules : EnabledRules
deriving DecidableEq

/-- The client GameState (game.types.ts GameState). -/
structure GameState where
  phase : Phase
  players : List Player
  currentPlayerIndex : Nat
  direction : Int
  drawPile : List Card
  discardPile : List Card
  pendingAction : Option PendingAction
  customRules : List CustomRule
  silenceMode : Bool
  stackedDrawAmount : Nat
  turnStartTime : Nat
  winner : Option Nat
  lastAction : Option GameAction
deriving DecidableEq

/-- Validation results (game.types.ts ValidationResult). -/
inductive VResult
  | valid
  | invalid (reason : String)
deriving DecidableEq

/-- The dispatch-level events the engine emits around a transition
(EventBus).  Handler-internal presentation events (card_played and the
like) carry no state and are not modelled. -/
inductive GameEvent
  | actionRejected (action : GameAction) (reason : String)
  | stateChanged
deriving DecidableEq

/-! ### TypeScript findIndex

TS Array.prototype.findIndex returns the index of the first match, -1 when
there is none; the -1 case is modelled with Option. -/

/-- Index of the first element satisfying the predicate. -/
def findIndex (p : α → Bool) : List α → Option Nat
  | [] => none
  | a :: l => if p a then some 0 else (findIndex p l).map (· + 1)

/-- Insert into a list sorted by the relation le (le a b meaning a may
come before b). -/
def insertSorted (le : α → α → Bool) (a : α) : List α → List α
  | [] => [a]
  | b :: l => if le b a then b :: insertSorted le a l else a :: b :: l

/-- Sort by the relation le.  Array.prototype.sort with a comparator is
modelled by this insertion sort; the engine-specific order of tied
elements is irrelevant to every theorem below, which only use that the
result is a permutation of the input. -/
def sortBy (le : α → α → Bool) : List α → List α
  | [] => []
  | a :: l => insertSorted le a (sortBy le l)

/-! ### CardDeck.ts -/

/-- The four suit colors, in source order. -/
def COLORS : List Color := [Color.red, Color.yellow, Color.green, Color.blue]

/-- Ranks 0-9. -/
def NUMBERS : List Nat := [0, 1, 2, 3, 4, 5, 6, 7, 8, 9]

/-- The three colored action values. -/
def ACTIONS : List CardValue := [CardValue.skip, CardValue.reverse, CardValue.draw2]

/-- Color/value composition of one suit: one 0, two each of 1-9, two of
each action, in the source's push order. -/
def colorCardValues (c : Color) : List (Color × CardValue) :=
  (c, CardValue.num 0) ::
    ((NUMBERS.drop 1).flatMap fun n => [(c, CardValue.num n), (c, CardValue.num n)]) ++
    (ACTIONS.flatMap fun a => [(c, a), (c, a)])

/-- Color/value composition of the whole deck: the four suits followed by
four wild / wild-draw-four pairs. -/
def deckValues : List (Color × CardValue) :=
  (COLORS.flatMap colorCardValues) ++
    ((List.range 4).flatMap fun _ =>
      [(Color.wild, CardValue.wild), (Color.wild, CardValue.wildDraw4)])

/-- createDeck: the fixed 108-card deck; uuids are modelled by the card's
position in creation order. -/
def createDeck : List Card :=
  deckValues.enum.map fun ic => { id := ic.1, color := ic.2.1, value := ic.2.2 }

/-- Swap the elements at positions i and j (helper for the Fisher-Yates
shuffle); out-of-range indices leave the list unchanged (never hit by
shuffleDeck, whose indices are in range by construction). -/
def listSwap (l : List Card) (i j : Nat) : List Card :=
  match l.get? i, l.get? j with
  | some a, some b => (l.set i b).set j a
  | _, _ => l

/-- One pass of the Fisher-Yates loop, counting i down; at loop counter
i+1 the source draws j = floor(random * (i+2)) in [0, i+1], modelled by
r (i+1) % (i+2). -/
def shuffleAux (r : Nat → Nat) : Nat → List Card → List Card
  | 0, l => l
  | i + 1, l => shuffleAux r i (listSwap l (i + 1) (r (i + 1) % (i + 2)))

/-- shuffleDeck: Fisher-Yates from index length-1 down to 1, with the
random draws supplied by the oracle r. -/
def shuffleDeck (r : Nat → Nat) (deck : List Card) : List Card :=
  shuffleAux r (deck.length - 1) deck

/-- drawCards: the first count elements and the rest (slice(0, n) /
slice(n)); silently returns fewer when the deck is short. -/
def drawCards (deck : List Card) (count : Nat) : List Card × List Card :=
  (deck.take count, deck.drop count)

/-- isPlayable: wild always; else match the effective color or the top
card's value. -/
def isPlayable (card topCard : Card) (currentColor : Color) : Bool :=
  if card.color == Color.wild then true
  else if card.color == currentColor then true
  else if card.value == topCard.value then true
  else false

/-- Whether a value is numeric (typeof card.value === 'number'). -/
def isNumberValue : CardValue → Bool
  | CardValue.num _ => true
  | _ => false

/-- isExactMatch: same color, same value, and the value is numeric. -/
def isExactMatch (card topCard : Card) : Bool :=
  card.color == topCard.color && card.value == topCard.value && isNumberValue card.value

/-- getCurrentColor: the chosen override when the top is wild and a color
was chosen, red for a wild top with no choice, else the top's color. -/
def getCurrentColor (topCard : Card) (selectedColor : Option Color) : Color :=
  match topCard.color, selectedColor with
  | Color.wild, some c => c
  | Color.wild, none => Color.red
  | c, _ => c

/-- isDrawCard. -/
def isDrawCard (card : Card) : Bool :=
  card.value == CardValue.draw2 || card.value == CardValue.wildDraw4

/-- isSkipCard. -/
def isSkipCard (card : Card) : Bool :=
  card.value == CardValue.skip

/-- isReverseCard. -/
def isReverseCard (card : Card) : Bool :=
  card.value == CardValue.reverse

/-- getDrawAmount. -/
def getDrawAmount (card : Card) : Nat :=
  if card.value == CardValue.draw2 then 2
  else if card.value == CardValue.wildDraw4 then 4
  else 0

/-! ### GameEngine.ts -/

/-- The initial hand size dealt to every player. -/
def INITIAL_HAND_SIZE : Nat := 7

/-- The client engine: its GameState plus the private fields of the
GameEngine class (config and the transient selectedWildColor), together
with the modelling bookkeeping for randomness and the ambient clock. -/
structure Engine where
  gs : GameState
  selectedWildColor : Option Color
  config : GameConfig
  rand : Nat → Nat → Nat
  shuffles : Nat
  now : Nat

/-- Shuffle with the next unused oracle column, advancing the counter. -/
def engineShuffle (e : Engine) (deck : List Card) : List Card × Nat :=
  (shuffleDeck (e.rand e.shuffles) deck, e.shuffles + 1)

/-- getTopCard: the last element of the discard pile (undefined when the
pile is empty, which no reachable state produces). -/
def getTopCard (e : Engine) : Option Card :=
  e.gs.discardPile.getLast?

/-- getCurrentColor on the engine: the pile top combined with the wild
override currently selected. -/
def engineCurrentColor (e : Engine) : Option Color :=
  (getTopCard e).map fun top => getCurrentColor top e.selectedWildColor

/-- getValidMoves: under a stacked draw (with the stackDraw rule on) only
draw cards of the same kind as the top; otherwise isPlayable filtering.
An unknown player id yields []; an empty discard pile would fault in the
source and yields [] here. -/
def getValidMoves (e : Engine) (playerId : Nat) : List Card :=
  match e.gs.players.find? fun p => p.id == playerId with
  | none => []
  | some player =>
    match getTopCard e with
    | none => []
    | some topCard =>
      let currentColor := getCurrentColor topCard e.selectedWildColor
      if 0 < e.gs.stackedDrawAmount && e.config.enabledRules.stackDraw then
        player.hand.filter fun card =>
          if topCard.value == CardValue.draw2 then card.value == CardValue.draw2
          else if topCard.value == CardValue.wildDraw4 then card.value == CardValue.wildDraw4
          else false
      else
        player.hand.filter fun card => isPlayable card topCard currentColor

/-- canJumpIn: rule enabled, card held by the player, exact match with the
top card. -/
def canJumpIn (e : Engine) (playerId cardId : Nat) : Bool :=
  if !e.config.enabledRules.jumpIn then false
  else
    match e.gs.players.find? fun p => p.id == playerId with
    | none => false
    | some player =>
      match player.hand.find? fun c => c.id == cardId with
      | none => false
      | some card =>
        match getTopCard e with
        | none => false
        | some top => isExactMatch card top

/-- Whether the acting player is the player whose turn it is
(players[currentPlayerIndex].id === playerId). -/
def isCurrentPlayer (e : Engine) (playerId : Nat) : Bool :=
  (e.gs.players.get? e.gs.currentPlayerIndex).map Player.id == some playerId

/-- validateAction: the engine's validation switch, returning the exact
reason strings of the source. -/
def validateAction (e : Engine) (a : GameAction) : VResult :=
  match e.gs.players.find? fun p => p.id == a.playerId with
  | none => VResult.invalid "Player not found"
  | some player =>
    match a.type with
    | ActionType.play_card =>
      match a.cardId with
      | none => VResult.invalid "No card specified"
      | some cid =>
        match player.hand.find? fun c => c.id == cid with
        | none => VResult.invalid "Card not in hand"
        | some card =>
          if !isCurrentPlayer e a.playerId then
            if canJumpIn e a.playerId cid then VResult.valid
            else VResult.invalid "Not your turn"
          else if ((getValidMoves e a.playerId).find? fun c => c.id == cid).isNone then
            VResult.invalid "Card cannot be played"
          else if card.color == Color.wild && a.wildColor.isNone then
            VResult.invalid "Must select a color for wild card"
          else VResult.valid
    | ActionType.draw_card =>
      if isCurrentPlayer e a.playerId then VResult.valid
      else VResult.invalid "Not your turn"
    | ActionType.call_uno =>
      if player.hand.length ≠ 2 then VResult.invalid "Can only call UNO with 2 cards"
      else VResult.valid
    | ActionType.catch_uno =>
      match e.gs.players.find? fun p => some p.id == a.targetPlayerId with
      | none => VResult.invalid "Target player not found"
      | some target =>
        if target.hand.length ≠ 1 || target.hasCalledUno then
          VResult.invalid "Cannot catch this player"
        else VResult.valid
    | ActionType.slap =>
      if e.gs.phase ≠ Phase.slap_race then VResult.invalid "No slap race active"
      else VResult.valid
    | ActionType.select_color =>
      if e.gs.phase ≠ Phase.color_selection then VResult.invalid "Not selecting color"
      else VResult.valid
    | _ => VResult.valid

/-- advanceTurn: step the index by the direction with explicit wrap-around,
and restart the turn clock. -/
def wrapAdvance (cur : Nat) (dir : Int) (numPlayers : Nat) : Nat :=
  let next : Int := cur + dir
  let next := if next < 0 then (numPlayers : Int) - 1 else next
  let next := if next ≥ (numPlayers : Int) then 0 else next
  next.toNat

/-- advanceTurn on the engine. -/
def advanceTurn (e : Engine) : Engine :=
  { e with gs := { e.gs with
      currentPlayerIndex :=
        wrapAdvance e.gs.currentPlayerIndex e.gs.direction e.gs.players.length,
      turnStartTime := e.now } }

/-- forceDrawCards: reshuffle the discard (keeping its top card) into the
draw pile when it is shorter than the request, then move the first count
cards of the pile into the player's hand.  An unknown player id faults in
the source (players[-1]) and leaves the state unchanged here; a reshuffle
with an empty discard pile would pop undefined and is likewise modelled as
skipping the reshuffle. -/
def forceDrawCards (e : Engine) (playerId : Nat) (count : Nat) : Engine :=
  match findIndex (fun p => p.id == playerId) e.gs.players with
  | none => e
  | some playerIndex =>
    match e.gs.players.get? playerIndex with
    | none => e
    | some player =>
      let piles :=
        if e.gs.drawPile.length < count then
          match e.gs.discardPile.getLast? with
          | some topCard =>
            ((engineShuffle e (e.gs.drawPile ++ e.gs.discardPile.dropLast)).1,
              [topCard], e.shuffles + 1)
          | none => (e.gs.drawPile, e.gs.discardPile, e.shuffles)
        else (e.gs.drawPile, e.gs.discardPile, e.shuffles)
      let dr := drawCards piles.1 count
      let newPlayers := e.gs.players.set playerIndex
        { player with hand := player.hand ++ dr.1 }
      { e with
          shuffles := piles.2.2,
          gs := { e.gs with
            players := newPlayers,
            drawPile := dr.2,
            discardPile := piles.2.1 } }

/-- applyCardEffects: the card-effect resolution algorithm. -/
def applyCardEffects (e : Engine) (card : Card) (playerIndex : Nat) : Engine :=
  if isDrawCard card then
    let drawAmount := getDrawAmount card
    if e.config.enabledRules.stackDraw then
      let e1 := { e with gs := { e.gs with
        stackedDrawAmount := e.gs.stackedDrawAmount + drawAmount } }
      let e2 := advanceTurn e1
      match e2.gs.players.get? e2.gs.currentPlayerIndex with
      | none => e2
      | some nextP =>
        let canStack := nextP.hand.any fun c =>
          if card.value == CardValue.draw2 then c.value == CardValue.draw2
          else if card.value == CardValue.wildDraw4 then c.value == CardValue.wildDraw4
          else false
        if canStack then e2
        else
          let e3 := forceDrawCards e2 nextP.id e2.gs.stackedDrawAmount
          let e4 := { e3 with gs := { e3.gs with stackedDrawAmount := 0 } }
          advanceTurn e4
    else
      let e1 := advanceTurn e
      match e1.gs.players.get? e1.gs.currentPlayerIndex with
      | none => e1
      | some nextP =>
        let e2 := forceDrawCards e1 nextP.id drawAmount
        advanceTurn e2
  else if isSkipCard card then
    advanceTurn (advanceTurn e)
  else if isReverseCard card then
    let e1 := { e with gs := { e.gs with direction := e.gs.direction * -1 } }
    if e1.gs.players.length == 2 then advanceTurn (advanceTurn e1)
    else advanceTurn e1
  else
    let e1 :=
      if e.config.enabledRules.silence && card.value == CardValue.num 7 then
        { e with gs := { e.gs with silenceMode := !e.gs.silenceMode } }
      else e
    if e1.config.enabledRules.customRule && card.value == CardValue.num 0 then
      { e1 with gs := { e1.gs with
          phase := Phase.custom_rule_creation,
          pendingAction :=
            some { kind := PendingKind.create_rule,
                   targetPlayer := (e.gs.players.get? playerIndex).map Player.id } } }
    else if e1.config.enabledRules.slap && card.value == CardValue.num 5 then
      { e1 with gs := { e1.gs with
          phase := Phase.slap_race,
          pendingAction :=
            some { kind := PendingKind.slap,
                   deadline := some (e1.now + 3000) } } }
    else advanceTurn e1

/-- The hand/flag update a play applies to the acting player. -/
def removeCardAt (p : Player) (cardIndex : Nat) : Player :=
  { p with
      hand := p.hand.take cardIndex ++ p.hand.drop (cardIndex + 1),
      hasCalledUno := false }

/-- handlePlayCard: remove the card from the hand, append it to the
discard, set or clear the wild override, detect a win, else resolve the
card's effects.  The none branches mark indexings the source would fault
on (findIndex = -1 after validation already excluded them). -/
def handlePlayCard (e : Engine) (a : GameAction) : Engine :=
  match a.cardId with
  | none => e
  | some cid =>
    match findIndex (fun p => p.id == a.playerId) e.gs.players with
    | none => e
    | some playerIndex =>
      match e.gs.players.get? playerIndex with
      | none => e
      | some player =>
        match findIndex (fun c => c.id == cid) player.hand with
        | none => e
        | some cardIndex =>
          match player.hand.get? cardIndex with
          | none => e
          | some card =>
            let newHand := player.hand.take cardIndex ++ player.hand.drop (cardIndex + 1)
            let newPlayers := e.gs.players.set playerIndex (removeCardAt player cardIndex)
            let newDiscardPile := e.gs.discardPile ++ [card]
            let sel := if card.color == Color.wild && a.wildColor.isSome
                       then a.wildColor else none
            let e1 := { e with
              selectedWildColor := sel,
              gs := { e.gs with players := newPlayers, discardPile := newDiscardPile } }
            if newHand.isEmpty then
              { e1 with gs := { e1.gs with
                  phase := Phase.game_over, winner := some a.playerId } }
            else
              applyCardEffects e1 card playerIndex

/-- handleDrawCard: draw the stacked amount when one is pending, else one
card, reset the accumulator, and advance. -/
def handleDrawCard (e : Engine) (a : GameAction) : Engine :=
  let drawCount := if 0 < e.gs.stackedDrawAmount then e.gs.stackedDrawAmount else 1
  let e1 := forceDrawCards e a.playerId drawCount
  let e2 := { e1 with gs := { e1.gs with stackedDrawAmount := 0 } }
  advanceTurn e2

/-- handleCallUno. -/
def handleCallUno (e : Engine) (a : GameAction) : Engine :=
  match findIndex (fun p => p.id == a.playerId) e.gs.players with
  | none => e
  | some playerIndex =>
    match e.gs.players.get? playerIndex with
    | none => e
    | some player =>
      { e with gs := { e.gs with
          players := e.gs.players.set playerIndex { player with hasCalledUno := true } } }

/-- handleCatchUno: the target draws 2 as a penalty. -/
def handleCatchUno (e : Engine) (a : GameAction) : Engine :=
  match a.targetPlayerId with
  | none => e
  | some tid => forceDrawCards e tid 2

/-- handleSlap: the class method is a stub (resolution happens in
resolveSlapRace). -/
def handleSlap (e : Engine) (_a : GameAction) : Engine :=
  e

/-- handleSelectColor: record the color, return to playing, advance. -/
def handleSelectColor (e : Engine) (a : GameAction) : Engine :=
  let e1 := match a.wildColor with
    | some c => { e with selectedWildColor := some c }
    | none => e
  advanceTurn { e1 with gs := { e1.gs with
    phase := Phase.playing, pendingAction := none } }

/-- handleCreateCustomRule: append the new rule (its uuid is modelled by
the number of rules created so far), return to playing, advance. -/
def handleCreateCustomRule (e : Engine) (a : GameAction) : Engine :=
  match a.customRule with
  | none => e
  | some payload =>
    let newRule : CustomRule :=
      { id := e.gs.customRules.length, text := payload.text, kind := payload.kind,
        createdBy := a.playerId, createdAt := e.now }
    advanceTurn { e with gs := { e.gs with
      phase := Phase.playing,
      pendingAction := none,
      customRules := e.gs.customRules ++ [newRule] } }

/-- handleReportSpeaking: in silence mode the reported target draws 1. -/
def handleReportSpeaking (e : Engine) (a : GameAction) : Engine :=
  if !e.config.enabledRules.silence || !e.gs.silenceMode then e
  else
    match a.targetPlayerId with
    | none => e
    | some tid => forceDrawCards e tid 1

/-- handleRequestCard: open a card_request naming requester and target. -/
def handleRequestCard (e : Engine) (a : GameAction) : Engine :=
  if !e.config.enabledRules.offerCard then e
  else
    match a.targetPlayerId with
    | none => e
    | some tid =>
      if a.playerId == tid then e
      else
        match e.gs.players.find? fun p => p.id == tid with
        | none => e
        | some target =>
          if target.hand.isEmpty then e
          else
            { e with gs := { e.gs with
                phase := Phase.card_request,
                pendingAction :=
                  some { kind := PendingKind.card_request,
                         requesterId := some a.playerId,
                         targetPlayer := some tid } } }

/-- handleDeclineRequest. -/
def handleDeclineRequest (e : Engine) (a : GameAction) : Engine :=
  match e.gs.pendingAction with
  | none => e
  | some pa =>
    if e.gs.phase ≠ Phase.card_request then e
    else if pa.targetPlayer ≠ some a.playerId then e
    else { e with gs := { e.gs with phase := Phase.playing, pendingAction := none } }

/-- handleOfferCard: record the offered card id and hand the decision to
the original requester.  Note that the source never checks that the
offered card is actually in the offerer's hand. -/
def handleOfferCard (e : Engine) (a : GameAction) : Engine :=
  if !e.config.enabledRules.offerCard then e
  else
    match a.cardId with
    | none => e
    | some cid =>
      match e.gs.pendingAction with
      | none => e
      | some pa =>
        if e.gs.phase ≠ Phase.card_request then e
        else if pa.targetPlayer ≠ some a.playerId then e
        else
          match pa.requesterId with
          | none => e
          | some requesterId =>
            { e with gs := { e.gs with
                phase := Phase.offering_card,
                pendingAction :=
                  some { kind := PendingKind.offer_decision,
                         offererId := some a.playerId,
                         targetPlayer := some requesterId,
                         offeredCardId := some cid,
                         requesterId := some requesterId } } }

/-- handleAcceptOffer: transfer the offered card from the offerer to the
requester.  The source computes cardIndex with findIndex and, without
checking for -1, slices the offerer's hand with slice(0, cardIndex) and
slice(cardIndex + 1); when the offered id is not in the offerer's hand
cardIndex is -1, JS normalizes slice(0, -1) to all-but-last and
slice(0) to the whole hand, so the new offerer hand is
dropLast ++ hand — the hand is nearly doubled.  The undefined card pushed
onto the target's hand has no typed counterpart and is dropped here (the
conservation violation is already forced by the duplicated hand). -/
def handleAcceptOffer (e : Engine) (_a : GameAction) : Engine :=
  match e.gs.pendingAction with
  | none => e
  | some pa =>
    if pa.kind ≠ PendingKind.offer_decision then e
    else
      match pa.offererId, pa.offeredCardId, pa.targetPlayer with
      | some offererId, some offeredCardId, some targetPlayer =>
        match findIndex (fun p => p.id == offererId) e.gs.players,
              findIndex (fun p => p.id == targetPlayer) e.gs.players with
        | some offererIndex, some targetIndex =>
          (match e.gs.players.get? offererIndex, e.gs.players.get? targetIndex with
           | some offerer, some target =>
             let pieces :=
               match findIndex (fun c => c.id == offeredCardId) offerer.hand with
               | some cardIndex =>
                 (offerer.hand.take cardIndex ++ offerer.hand.drop (cardIndex + 1),
                   target.hand ++ (offerer.hand.get? cardIndex).toList)
               | none =>
                 (offerer.hand.dropLast ++ offerer.hand, target.hand)
             let newPlayers :=
               (e.gs.players.set offererIndex { offerer with hand := pieces.1 }).set
                 targetIndex { target with hand := pieces.2 }
             { e with gs := { e.gs with
                 phase := Phase.playing, pendingAction := none, players := newPlayers } }
           | _, _ => e)
        | _, _ => e
      | _, _, _ => e

/-- handleDeclineOffer. -/
def handleDeclineOffer (e : Engine) (_a : GameAction) : Engine :=
  { e with gs := { e.gs with phase := Phase.playing, pendingAction := none } }

/-- handlePassTurn. -/
def handlePassTurn (e : Engine) (_a : GameAction) : Engine :=
  advanceTurn e

/-- handleJumpIn: reseat the turn on the jumper, then play normally. -/
def handleJumpIn (e : Engine) (a : GameAction) : Engine :=
  match findIndex (fun p => p.id == a.playerId) e.gs.players with
  | none => e
  | some playerIndex =>
    handlePlayCard { e with gs := { e.gs with currentPlayerIndex := playerIndex } } a

/-- applyAction: route an action to its handler. -/
def applyAction (e : Engine) (a : GameAction) : Engine :=
  match a.type with
  | ActionType.play_card => handlePlayCard e a
  | ActionType.draw_card => handleDrawCard e a
  | ActionType.call_uno => handleCallUno e a
  | ActionType.catch_uno => handleCatchUno e a
  | ActionType.slap => handleSlap e a
  | ActionType.select_color => handleSelectColor e a
  | ActionType.create_custom_rule => handleCreateCustomRule e a
  | ActionType.report_speaking => handleReportSpeaking e a
  | ActionType.request_card => handleRequestCard e a
  | ActionType.decline_request => handleDeclineRequest e a
  | ActionType.offer_card => handleOfferCard e a
  | ActionType.accept_offer => handleAcceptOffer e a
  | ActionType.decline_offer => handleDeclineOffer e a
  | ActionType.pass_turn => handlePassTurn e a
  | ActionType.jump_in => handleJumpIn e a

/-- dispatch: validate; on failure emit action_rejected and return the
state unchanged; on success apply, record lastAction, emit state_changed. -/
def dispatch (e : Engine) (a : GameAction) : Engine × List GameEvent :=
  match validateAction e a with
  | VResult.invalid reason => (e, [GameEvent.actionRejected a reason])
  | VResult.valid =>
    let e1 := applyAction e a
    let e2 := { e1 with gs := { e1.gs with lastAction := some a } }
    (e2, [GameEvent.stateChanged])

/-- One slap attempt collected by the presentation layer. -/
structure SlapResult where
  playerId : Nat
  timestamp : Nat
deriving DecidableEq

/-- resolveSlapRace: the loser is the first player (in seating order) who
never slapped, else the slowest slapper; they draw one card, and the game
returns to playing and advances. -/
def resolveSlapRace (e : Engine) (slapResults : List SlapResult) : Engine :=
  if e.gs.phase ≠ Phase.slap_race then e
  else
    let sorted := sortBy (fun a b => a.timestamp ≤ b.timestamp) slapResults
    let nonSlappers := e.gs.players.filter fun p =>
      !(sorted.any fun s => s.playerId == p.id)
    let loserId? :=
      match nonSlappers with
      | loser :: _ => some loser.id
      | [] => (sorted.getLast?).map SlapResult.playerId
    match loserId? with
    | none => e
    | some loserId =>
      let e1 := forceDrawCards e loserId 1
      advanceTurn { e1 with gs := { e1.gs with
        phase := Phase.playing, pendingAction := none } }

/-- Deal INITIAL_HAND_SIZE cards to each of count players, allocating
player ids from startId upward; returns the players and the rest of the
deck. -/
def dealHands (startId : Nat) : Nat → List Card → List Player × List Card
  | 0, deck => ([], deck)
  | count + 1, deck =>
    let dr := drawCards deck INITIAL_HAND_SIZE
    let rest := dealHands (startId + 1) count dr.2
    ({ id := startId, hand := dr.1, hasCalledUno := false } :: rest.1, rest.2)

/-- createInitialState: shuffle a fresh deck, deal 7 to each player, and
reveal the first non-wild numeral (position 0 as a fallback) as the
discard top.  Player uuids are modelled as seat indices. -/
def createInitialState (config : GameConfig) (rand : Nat → Nat → Nat) (now : Nat) : Engine :=
  let deck0 := shuffleDeck (rand 0) createDeck
  let dealt := dealHands 0 config.playerCount deck0
  let deck1 := dealt.2
  let firstCardIndex :=
    match findIndex (fun c => !(c.color == Color.wild) && isNumberValue c.value) deck1 with
    | some i => i
    | none => 0
  let firstCard? := deck1.get? firstCardIndex
  let deck2 := deck1.take firstCardIndex ++ deck1.drop (firstCardIndex + 1)
  { gs := {
      phase := Phase.playing,
      players := dealt.1,
      currentPlayerIndex := 0,
      direction := 1,
      drawPile := deck2,
      discardPile := firstCard?.toList,
      pendingAction := none,
      customRules := [],
      silenceMode := false,
      stackedDrawAmount := 0,
      turnStartTime := now,
      winner := none,
      lastAction := none },
    selectedWildColor := none,
    config := config,
    rand := rand,
    shuffles := 1,
    now := now }

/-! ### server/src/index.ts

The server keeps its own copy of the types and transition logic.  socketId
and display names are transport/presentation fields never read by the
transitions and are omitted from the server Player, which therefore
coincides with the client Player model above. -/

/-- The server GameState; unlike the client it stores the wild override
inside the state.  The shuffles counter is modelling bookkeeping for the
randomness oracle. -/
structure ServerState where
  phase : Phase
  players : List Player
  currentPlayerIndex : Nat
  direction : Int
  drawPile : List Card
  discardPile : List Card
  pendingAction : Option PendingAction
  customRules : List CustomRule
  silenceMode : Bool
  stackedDrawAmount : Nat
  turnStartTime : Nat
  winner : Option Nat
  selectedWildColor : Option Color
  shuffles : Nat

/-- One step of the server's turn arithmetic:
(next + direction + playerCount) % playerCount.  The left operand is
nonnegative whenever next < playerCount, so JS remainder and emod agree. -/
def modAdvance (next : Nat) (dir : Int) (numPlayers : Nat) : Nat :=
  (((next : Int) + dir + numPlayers) % (numPlayers : Int)).toNat

/-- nextPlayer(state, skip): apply the step skip+1 times. -/
def nextPlayerFrom (dir : Int) (numPlayers : Nat) : Nat → Nat → Nat
  | 0, next => next
  | k + 1, next => nextPlayerFrom dir numPlayers k (modAdvance next dir numPlayers)

/-- nextPlayer on the server state: the loop body runs skip + 1 times. -/
def nextPlayer (s : ServerState) (skip : Nat) : Nat :=
  nextPlayerFrom s.direction s.players.length (skip + 1) s.currentPlayerIndex

/-- getTopCard on the server state. -/
def serverTopCard (s : ServerState) : Option Card :=
  s.discardPile.getLast?

/-- canPlayCard: wild always; else match the effective color
(selectedWildColor || top color) or the top value.  A missing top card
(empty discard) would be dereferenced by the source; wild cards return
true before that point, other cards are mapped to false here. -/
def canPlayCard (s : ServerState) (card : Card) : Bool :=
  if card.color == Color.wild then true
  else
    match serverTopCard s with
    | none => false
    | some topCard =>
      let effectiveColor := s.selectedWildColor.getD topCard.color
      if card.color == effectiveColor then true
      else if card.value == topCard.value then true
      else false

/-- getValidMoves on the server: under any stacked draw only +2/+4 cards
(of either kind), else canPlayCard filtering. -/
def serverValidMoves (s : ServerState) (playerId : Nat) : List Card :=
  match s.players.find? fun p => p.id == playerId with
  | none => []
  | some player =>
    if 0 < s.stackedDrawAmount then
      player.hand.filter fun c =>
        c.value == CardValue.draw2 || c.value == CardValue.wildDraw4
    else
      player.hand.filter fun c => canPlayCard s c

/-- One iteration of the server drawCards loop: reshuffle the discard
(keeping its top) into the draw pile when the pile is empty, then pop the
pile's last card if any.  A reshuffle with an empty discard would pop
undefined in the source and is modelled as skipping the reshuffle. -/
def serverDrawLoop (rand : Nat → Nat → Nat) :
    Nat → List Card × ServerState → List Card × ServerState
  | 0, acc => acc
  | k + 1, (cards, s) =>
    let s1 :=
      if s.drawPile.isEmpty then
        match s.discardPile.getLast? with
        | some topCard =>
          { s with
              drawPile := shuffleDeck (rand s.shuffles) s.discardPile.dropLast,
              discardPile := [topCard],
              shuffles := s.shuffles + 1 }
        | none => s
      else s
    match s1.drawPile.getLast? with
    | some c =>
      serverDrawLoop rand k (cards ++ [c], { s1 with drawPile := s1.drawPile.dropLast })
    | none => serverDrawLoop rand k (cards, s1)

/-- drawCards on the server: mutate the piles and return the cards drawn. -/
def serverDrawCards (rand : Nat → Nat → Nat) (s : ServerState) (count : Nat) :
    List Card × ServerState :=
  serverDrawLoop rand count ([], s)

/-- applyCardEffects on the server.  The JS switch dispatches on
card.value with strict equality, rendered here as a ===-comparison chain
in case order; every branch ends by stamping turnStartTime (the statement
after the switch). -/
def serverApplyCardEffects (rules : EnabledRules) (rand : Nat → Nat → Nat) (now : Nat)
    (s : ServerState) (card : Card) (_playerIndex : Nat) : ServerState :=
  let s9 :=
    if card.value == CardValue.skip then
      { s with currentPlayerIndex := nextPlayer s 1 }
    else if card.value == CardValue.reverse then
      if s.players.length == 2 then
        { s with currentPlayerIndex := nextPlayer s 1 }
      else
        let s1 := { s with direction := s.direction * -1 }
        { s1 with currentPlayerIndex := nextPlayer s1 0 }
    else if card.value == CardValue.draw2 then
      let s1 :=
        if rules.stackDraw then
          { s with stackedDrawAmount := s.stackedDrawAmount + 2 }
        else
          let nextIdx := nextPlayer s 0
          let dr := serverDrawCards rand s 2
          let s2 := dr.2
          let s3 :=
            match s2.players.get? nextIdx with
            | some p =>
              let np := s2.players.set nextIdx { p with hand := p.hand ++ dr.1 }
              { s2 with players := np }
            | none => s2
          { s3 with currentPlayerIndex := nextPlayer s3 1 }
      { s1 with currentPlayerIndex := nextPlayer s1 0 }
    else if card.value == CardValue.wildDraw4 then
      let s1 :=
        if rules.stackDraw then
          { s with stackedDrawAmount := s.stackedDrawAmount + 4 }
        else
          let nextIdx := nextPlayer s 0
          let dr := serverDrawCards rand s 4
          let s2 := dr.2
          let s3 :=
            match s2.players.get? nextIdx with
            | some p =>
              let np := s2.players.set nextIdx { p with hand := p.hand ++ dr.1 }
              { s2 with players := np }
            | none => s2
          { s3 with currentPlayerIndex := nextPlayer s3 1 }
      { s1 with currentPlayerIndex := nextPlayer s1 0 }
    else if card.value == CardValue.num 7 then
      let s1 := if rules.silence then { s with silenceMode := !s.silenceMode } else s
      { s1 with currentPlayerIndex := nextPlayer s1 0 }
    else if card.value == CardValue.num 0 then
      if rules.customRule then { s with phase := Phase.custom_rule_creation }
      else { s with currentPlayerIndex := nextPlayer s 0 }
    else if card.value == CardValue.num 5 then
      if rules.slap then
        { s with
            phase := Phase.slap_race,
            pendingAction :=
              some { kind := PendingKind.slap, deadline := some (now + 3000) } }
      else { s with currentPlayerIndex := nextPlayer s 0 }
    else
      { s with currentPlayerIndex := nextPlayer s 0 }
  { s9 with turnStartTime := now }

/-- handleAction: the server's per-action switch.  The none branches mark
guards the source expresses with early returns, plus the indexings the
source would fault on. -/
def serverHandleAction (rules : EnabledRules) (rand : Nat → Nat → Nat) (now : Nat)
    (s : ServerState) (a : GameAction) : ServerState :=
  if s.phase == Phase.game_over then s
  else
    match findIndex (fun p => p.id == a.playerId) s.players with
    | none => s
    | some playerIndex =>
      match s.players.get? playerIndex with
      | none => s
      | some player =>
        match a.type with
        | ActionType.play_card =>
          match a.cardId with
          | none => s
          | some cid =>
            match findIndex (fun c => c.id == cid) player.hand with
            | none => s
            | some cardIndex =>
              match player.hand.get? cardIndex with
              | none => s
              | some card =>
                if s.currentPlayerIndex ≠ playerIndex then
                  -- out of turn: jump-in when enabled and color+value match
                  if rules.jumpIn then
                    match serverTopCard s with
                    | none => s
                    | some topCard =>
                      if card.color == topCard.color && card.value == topCard.value then
                        let newHand := player.hand.take cardIndex ++
                          player.hand.drop (cardIndex + 1)
                        let s1 := { s with
                          players := s.players.set playerIndex
                            { player with hand := newHand },
                          discardPile := s.discardPile ++ [card],
                          currentPlayerIndex := playerIndex,
                          selectedWildColor := none,
                          turnStartTime := now }
                        if newHand.isEmpty then
                          { s1 with phase := Phase.game_over, winner := some a.playerId }
                        else
                          { s1 with currentPlayerIndex := nextPlayer s1 0 }
                      else s
                  else s
                else if !canPlayCard s card && s.stackedDrawAmount == 0 then s
                else
                  let newHand := player.hand.take cardIndex ++
                    player.hand.drop (cardIndex + 1)
                  let s1 := { s with
                    players := s.players.set playerIndex { player with hand := newHand },
                    discardPile := s.discardPile ++ [card] }
                  if card.color == Color.wild then
                    let s2 := { s1 with selectedWildColor := a.wildColor }
                    if a.wildColor.isNone then
                      { s2 with phase := Phase.color_selection }
                    else if newHand.isEmpty then
                      { s2 with phase := Phase.game_over, winner := some a.playerId }
                    else serverApplyCardEffects rules rand now s2 card playerIndex
                  else
                    let s2 := { s1 with selectedWildColor := none }
                    if newHand.isEmpty then
                      { s2 with phase := Phase.game_over, winner := some a.playerId }
                    else serverApplyCardEffects rules rand now s2 card playerIndex
        | ActionType.draw_card =>
          if s.currentPlayerIndex ≠ playerIndex then s
          else
            let amount := if 0 < s.stackedDrawAmount then s.stackedDrawAmount else 1
            let dr := serverDrawCards rand s amount
            let s1 := dr.2
            let s2 := { s1 with
              players := s1.players.set playerIndex
                { player with hand := player.hand ++ dr.1, hasCalledUno := false },
              stackedDrawAmount := 0 }
            { s2 with currentPlayerIndex := nextPlayer s2 0, turnStartTime := now }
        | ActionType.select_color =>
          if s.phase ≠ Phase.color_selection then s
          else
            let s1 := { s with
              selectedWildColor := a.wildColor,
              phase := Phase.playing }
            { s1 with currentPlayerIndex := nextPlayer s1 0, turnStartTime := now }
        | ActionType.call_uno =>
          if player.hand.length ≤ 2 then
            let np := s.players.set playerIndex { player with hasCalledUno := true }
            { s with players := np }
          else s
        | ActionType.catch_uno =>
          match findIndex (fun p => some p.id == a.targetPlayerId) s.players with
          | none => s
          | some targetIndex =>
            match s.players.get? targetIndex with
            | none => s
            | some target =>
              if target.hand.length == 1 && !target.hasCalledUno then
                let dr := serverDrawCards rand s 2
                let s1 := dr.2
                let np := s1.players.set targetIndex
                  { target with hand := target.hand ++ dr.1 }
                { s1 with players := np }
              else s
        | ActionType.slap =>
          if s.phase ≠ Phase.slap_race then s
          else { s with phase := Phase.playing, pendingAction := none }
        | ActionType.create_custom_rule =>
          if s.phase ≠ Phase.custom_rule_creation then s
          else
            match a.customRule with
            | none => s
            | some payload =>
              let newRule : CustomRule :=
                { id := s.customRules.length, text := payload.text,
                  kind := payload.kind, createdBy := a.playerId, createdAt := now }
              let s1 := { s with
                customRules := s.customRules ++ [newRule],
                phase := Phase.playing }
              { s1 with currentPlayerIndex := nextPlayer s1 0, turnStartTime := now }
        | ActionType.report_speaking =>
          if !s.silenceMode then s
          else
            match findIndex (fun p => some p.id == a.targetPlayerId) s.players with
            | none => s
            | some targetIndex =>
              match s.players.get? targetIndex with
              | none => s
              | some target =>
                let dr := serverDrawCards rand s 1
                let s1 := dr.2
                let np := s1.players.set targetIndex
                  { target with hand := target.hand ++ dr.1 }
                { s1 with players := np }
        | ActionType.request_card =>
          if !rules.offerCard then s
          else
            match a.targetPlayerId with
            | none => s
            | some tid =>
              match s.players.find? fun p => p.id == tid with
              | none => s
              | some target =>
                if target.hand.isEmpty then s
                else
                  { s with
                      phase := Phase.card_request,
                      pendingAction :=
                        some { kind := PendingKind.card_request,
                               requesterId := some a.playerId,
                               targetPlayer := some tid } }
        | ActionType.decline_request =>
          if s.phase ≠ Phase.card_request then s
          else
            match s.pendingAction with
            | none => s
            | some pa =>
              if pa.targetPlayer ≠ some a.playerId then s
              else { s with phase := Phase.playing, pendingAction := none }
        | ActionType.offer_card =>
          if s.phase ≠ Phase.card_request then s
          else
            match s.pendingAction with
            | none => s
            | some pa =>
              if pa.targetPlayer ≠ some a.playerId then s
              else
                match pa.requesterId with
                | none => s
                | some requesterId =>
                  { s with
                      phase := Phase.offering_card,
                      pendingAction :=
                        some { kind := PendingKind.offer_decision,
                               offererId := some a.playerId,
                               targetPlayer := some requesterId,
                               offeredCardId := a.cardId,
                               requesterId := some requesterId } }
        | ActionType.accept_offer =>
          if s.phase ≠ Phase.offering_card then s
          else
            match s.pendingAction with
            | none => s
            | some pa =>
              match pa.offererId, pa.offeredCardId, pa.targetPlayer with
              | some offererId, some offeredCardId, some targetPlayer =>
                match findIndex (fun p => p.id == offererId) s.players,
                      findIndex (fun p => p.id == targetPlayer) s.players with
                | some offererIndex, some targetIndex =>
                  (match s.players.get? offererIndex, s.players.get? targetIndex with
                   | some offerer, some target =>
                     match findIndex (fun c => c.id == offeredCardId) offerer.hand with
                     | none => s
                     | some cardIndex =>
                       match offerer.hand.get? cardIndex with
                       | none => s
                       | some card =>
                         let newOffererHand := offerer.hand.take cardIndex ++
                           offerer.hand.drop (cardIndex + 1)
                         let newPlayers :=
                           (s.players.set offererIndex
                               { offerer with hand := newOffererHand }).set targetIndex
                             { target with hand := target.hand ++ [card] }
                         { s with
                             phase := Phase.playing,
                             pendingAction := none,
                             players := newPlayers }
                   | _, _ => s)
                | _, _ => s
              | _, _, _ => s
        | ActionType.decline_offer =>
          if s.phase ≠ Phase.offering_card then s
          else { s with phase := Phase.playing, pendingAction := none }
        | _ => s

/-- The placeholder card used for redaction.  The source gives it the
string id 'hidden'; ids are Nats here, so a sentinel outside the range
createDeck ever allocates stands in for it. -/
def hiddenCard : Card :=
  { id := 1000000, color := Color.wild, value := CardValue.wild }

/-- getStateForPlayer: replace every other player's hand by equal-length
placeholders and strip the draw pile. -/
def getStateForPlayer (s : ServerState) (playerId : Nat) : ServerState :=
  { s with
      players := s.players.map fun p =>
        if p.id == playerId then p
        else { p with hand := p.hand.map fun _ => hiddenCard },
      drawPile := [] }

/-! ### AIPlayer.ts -/

/-- Difficulty tiers. -/
inductive AIDifficulty
  | easy
  | medium
  | hard
deriving DecidableEq

/-- The Math.random draws an AI decision consumes, passed explicitly:
pick drives the easy tier's uniform choice, wildColorIx the wild-color
choice, delayJitter the thinking-delay jitter. -/
structure AIRandom where
  pick : Nat
  wildColorIx : Nat
  delayJitter : Nat

/-- An AI decision: the proposed action plus a thinking delay. -/
structure AIDecision where
  action : GameAction
  delay : Nat
deriving DecidableEq

/-- Thinking delay: a per-tier base plus jitter in [0, 500). -/
def getThinkingDelay (difficulty : AIDifficulty) (r : AIRandom) : Nat :=
  let base :=
    match difficulty with
    | AIDifficulty.easy => 1500
    | AIDifficulty.medium => 1000
    | AIDifficulty.hard => 500
  base + r.delayJitter % 500

/-- pickWildColor: uniform among the four colors (source order). -/
def pickWildColor (r : AIRandom) : Color :=
  match r.wildColorIx % 4 with
  | 0 => Color.red
  | 1 => Color.blue
  | 2 => Color.green
  | _ => Color.yellow

/-- playCardDecision: wrap a card into a play_card action, choosing a wild
color when the card is wild. -/
def playCardDecision (aiId : Nat) (difficulty : AIDifficulty) (r : AIRandom)
    (card : Card) : AIDecision :=
  { action :=
      { type := ActionType.play_card,
        playerId := aiId,
        cardId := some card.id,
        wildColor := if card.color == Color.wild then some (pickWildColor r) else none },
    delay := getThinkingDelay difficulty r }

/-- basicStrategy's priority function (medium tier). -/
def cardPriority (card : Card) : Nat :=
  if card.value == CardValue.wildDraw4 then 100
  else if card.value == CardValue.draw2 then 80
  else if card.value == CardValue.skip then 60
  else if card.value == CardValue.reverse then 50
  else if card.value == CardValue.wild then 10
  else match card.value with
    | CardValue.num n => n + 20
    | _ => 0

/-- optimalStrategy's scoring function (hard tier); scores can be
negative, hence Int. -/
def cardScore (aiId : Nat) (validMoves hand : List Card) (gs : GameState)
    (card : Card) : Int :=
  let colorCount := (hand.filter fun c => c.color == card.color).length
  let base : Int := colorCount * 5
  let wildPenalty : Int :=
    if card.color == Color.wild then
      if (validMoves.filter fun c => !(c.color == Color.wild)).length > 0 then -50 else 0
    else 0
  -- Math.min over the opponents' hand sizes; an empty spread yields
  -- Infinity in JS, which never satisfies the <= 3 test, hence none here.
  let minOpponentCards :=
    ((gs.players.filter fun p => !(p.id == aiId)).map fun p => p.hand.length).min?
  let endgameBonus : Int :=
    match minOpponentCards with
    | some m =>
      if m ≤ 3 then
        if card.value == CardValue.skip || card.value == CardValue.reverse then 30
        else if card.value == CardValue.draw2 then 40
        else if card.value == CardValue.wildDraw4 then 50
        else 0
      else 0
    | none => 0
  let slapMalus : Int := if card.value == CardValue.num 5 then -10 else 0
  let silenceBonus : Int := if card.value == CardValue.num 7 then 5 else 0
  let numBonus : Int :=
    match card.value with
    | CardValue.num n => n
    | _ => 0
  base + wildPenalty + endgameBonus + slapMalus + silenceBonus + numBonus

/-- pickBestCard: easy — uniform choice; medium — first by descending
priority; hard — first by descending score.  JS sort with comparator
(a, b) => key b - key a is a descending sort, modelled by sortBy with
the corresponding total order.  Only called with nonempty validMoves. -/
def pickBestCard (aiId : Nat) (difficulty : AIDifficulty) (r : AIRandom)
    (validMoves hand : List Card) (gs : GameState) : Option Card :=
  match difficulty with
  | AIDifficulty.easy => validMoves.get? (r.pick % validMoves.length)
  | AIDifficulty.medium =>
    (sortBy (fun a b => cardPriority b ≤ cardPriority a) validMoves).head?
  | AIDifficulty.hard =>
    (sortBy (fun a b =>
      cardScore aiId validMoves hand gs b ≤ cardScore aiId validMoves hand gs a)
      validMoves).head?

/-- decidePlay: compute valid moves against the top card with NO wild
override (the AI cannot see the engine's selectedWildColor and calls
getCurrentColor(topCard) with one argument); counter or absorb a stacked
draw; else draw when stuck or play the strategy's pick.  none marks the
dereference of an undefined top card (empty discard) in the source. -/
def decidePlay (aiId : Nat) (difficulty : AIDifficulty) (r : AIRandom)
    (gs : GameState) (player : Player) : Option AIDecision :=
  match gs.discardPile.getLast? with
  | none => none
  | some topCard =>
    let currentColor := getCurrentColor topCard none
    let validMoves := player.hand.filter fun card => isPlayable card topCard currentColor
    if 0 < gs.stackedDrawAmount then
      let canCounter := validMoves.any fun c =>
        c.value == CardValue.draw2 || c.value == CardValue.wildDraw4
      if !canCounter then
        some { action := { type := ActionType.draw_card, playerId := aiId },
               delay := getThinkingDelay difficulty r }
      else
        match validMoves.find? fun c =>
          c.value == CardValue.draw2 || c.value == CardValue.wildDraw4 with
        | some counterCard => some (playCardDecision aiId difficulty r counterCard)
        | none => none
    else if validMoves.isEmpty then
      some { action := { type := ActionType.draw_card, playerId := aiId },
             delay := getThinkingDelay difficulty r }
    else
      match pickBestCard aiId difficulty r validMoves player.hand gs with
      | some bestCard => some (playCardDecision aiId difficulty r bestCard)
      | none => none

/-- decideSlap: slap after a difficulty-based reaction time. -/
def decideSlap (aiId : Nat) (difficulty : AIDifficulty) (r : AIRandom)
    (now : Nat) : AIDecision :=
  let baseDelay :=
    match difficulty with
    | AIDifficulty.easy => 1500
    | AIDifficulty.medium => 800
    | AIDifficulty.hard => 200
  let variance := r.delayJitter % 500
  { action := { type := ActionType.slap, playerId := aiId,
                timestamp := some (now + baseDelay + variance) },
    delay := baseDelay + variance }

/-- The canned custom rules the AI chooses from. -/
def aiRuleChoices : List (String × CustomRuleKind) :=
  [("Must say thank you when drawing", CustomRuleKind.speech),
   ("No pointing at people", CustomRuleKind.behavioral),
   ("Knock before playing a card", CustomRuleKind.action),
   ("Draw 1 if you touch your face", CustomRuleKind.penalty),
   ("Must speak in an accent", CustomRuleKind.behavioral)]

/-- decideCustomRule: a uniformly chosen canned rule. -/
def decideCustomRule (aiId : Nat) (r : AIRandom) : Option AIDecision :=
  match aiRuleChoices.get? (r.pick % aiRuleChoices.length) with
  | none => none
  | some rule =>
    some { action := { type := ActionType.create_custom_rule, playerId := aiId,
                       customRule := some { text := rule.1, kind := rule.2 } },
           delay := 1500 }

/-- makeDecision: the AI's top-level decision function over the visible
GameState. -/
def makeDecision (aiId : Nat) (difficulty : AIDifficulty) (r : AIRandom)
    (now : Nat) (gs : GameState) : Option AIDecision :=
  match gs.players.find? fun p => p.id == aiId with
  | none => none
  | some player =>
    let isMyTurn := (gs.players.get? gs.currentPlayerIndex).map Player.id == some aiId
    if !isMyTurn && gs.phase == Phase.playing then none
    else
      match gs.phase with
      | Phase.playing => decidePlay aiId difficulty r gs player
      | Phase.slap_race => some (decideSlap aiId difficulty r now)
      | Phase.custom_rule_creation => decideCustomRule aiId r
      | _ => none

/-! ### Derived observations and concrete instances

Definitions used by the theorems below: the card-count observation for the
conservation property, a common core view for comparing the client and
server transition results, and concrete states exercising the engines. -/

/-- The total number of cards across the draw pile, the discard pile and
all hands. -/
def totalCards (gs : GameState) : Nat :=
  gs.drawPile.length + gs.discardPile.length +
    (gs.players.map fun p => p.hand.length).sum

/-- The portion of the state the client/server equivalence claim compares:
phase, current player, direction, the per-player hands, both piles, and
the stacked-draw accumulator. -/
structure CoreView where
  phase : Phase
  currentPlayerIndex : Nat
  direction : Int
  hands : List (List Card)
  drawPile : List Card
  discardPile : List Card
  stackedDrawAmount : Nat
deriving DecidableEq

/-- Core view of a client state. -/
def clientCore (gs : GameState) : CoreView :=
  { phase := gs.phase,
    currentPlayerIndex := gs.currentPlayerIndex,
    direction := gs.direction,
    hands := gs.players.map Player.hand,
    drawPile := gs.drawPile,
    discardPile := gs.discardPile,
    stackedDrawAmount := gs.stackedDrawAmount }

/-- Core view of a server state. -/
def serverCore (s : ServerState) : CoreView :=
  { phase := s.phase,
    currentPlayerIndex := s.currentPlayerIndex,
    direction := s.direction,
    hands := s.players.map Player.hand,
    drawPile := s.drawPile,
    discardPile := s.discardPile,
    stackedDrawAmount := s.stackedDrawAmount }

/-- All house rules on (the server's default room configuration). -/
def fullRules : EnabledRules :=
  { silence := true, customRule := true, stackDraw := true, stackSkip := true,
    slap := true, jumpIn := true, unoCall := true, offerCard := true }

/-- A fixed shuffle oracle (every Fisher-Yates draw picks index 0). -/
def zeroRand : Nat → Nat → Nat := fun _ _ => 0

/-- A two-player session with every rule enabled. -/
def cfg2 : GameConfig := { playerCount := 2, enabledRules := fullRules }

/-- The state a fresh two-player session deals. -/
def sessionStart : Engine := createInitialState cfg2 zeroRand 0

/-- Action 1 of the conservation-breaking run: player 0 asks player 1 for
a card. -/
def reqAction : GameAction :=
  { type := ActionType.request_card, playerId := 0, targetPlayerId := some 1 }

/-- Action 2: player 1 offers card id 999 — an id that is in nobody's
hand; nothing validates it. -/
def offAction : GameAction :=
  { type := ActionType.offer_card, playerId := 1, cardId := some 999 }

/-- Action 3: player 0 accepts the bogus offer. -/
def accAction : GameAction :=
  { type := ActionType.accept_offer, playerId := 0 }

/-- The state after the request/offer/accept run. -/
def afterAccept : Engine :=
  (dispatch (dispatch (dispatch sessionStart reqAction).1 offAction).1 accAction).1

/-- Sample cards used by the concrete states below. -/
def cardA : Card := { id := 10, color := Color.green, value := CardValue.num 1 }

/-- Second draw-pile card. -/
def cardB : Card := { id := 11, color := Color.yellow, value := CardValue.num 2 }

/-- A blue 3 in player 0's hand. -/
def blue3 : Card := { id := 12, color := Color.blue, value := CardValue.num 3 }

/-- A blue 4 in player 1's hand. -/
def blue4 : Card := { id := 13, color := Color.blue, value := CardValue.num 4 }

/-- The discard top of the concrete states. -/
def redTop : Card := { id := 14, color := Color.red, value := CardValue.num 5 }

/-- A two-player playing state shared by the client/server comparison:
draw pile [cardA, cardB], player 0 to move. -/
def gsX : GameState :=
  { phase := Phase.playing,
    players := [{ id := 0, hand := [blue3], hasCalledUno := false },
                { id := 1, hand := [blue4], hasCalledUno := false }],
    currentPlayerIndex := 0, direction := 1,
    drawPile := [cardA, cardB], discardPile := [redTop],
    pendingAction := none, customRules := [], silenceMode := false,
    stackedDrawAmount := 0, turnStartTime := 0, winner := none, lastAction := none }

/-- The client engine over gsX. -/
def engX : Engine :=
  { gs := gsX, selectedWildColor := none, config := cfg2,
    rand := zeroRand, shuffles := 0, now := 0 }

/-- The matching server state (same shared fields as gsX). -/
def srvX : ServerState :=
  { phase := Phase.playing, players := gsX.players, currentPlayerIndex := 0,
    direction := 1, drawPile := [cardA, cardB], discardPile := [redTop],
    pendingAction := none, customRules := [], silenceMode := false,
    stackedDrawAmount := 0, turnStartTime := 0, winner := none,
    selectedWildColor := none, shuffles := 0 }

/-- Player 0 draws a card. -/
def drawAction : GameAction := { type := ActionType.draw_card, playerId := 0 }

/-- A wild card sitting on top of the discard. -/
def wildTop : Card := { id := 20, color := Color.wild, value := CardValue.wild }

/-- The red 3 the AI holds. -/
def red3 : Card := { id := 21, color := Color.red, value := CardValue.num 3 }

/-- A state whose discard top is a wild card: player 1 (the AI) is to
move and holds only a red 3. -/
def gsAI : GameState :=
  { phase := Phase.playing,
    players := [{ id := 0, hand := [blue3, blue4], hasCalledUno := false },
                { id := 1, hand := [red3], hasCalledUno := false }],
    currentPlayerIndex := 1, direction := 1,
    drawPile := [cardA, cardB], discardPile := [redTop, wildTop],
    pendingAction := none, customRules := [], silenceMode := false,
    stackedDrawAmount := 0, turnStartTime := 0, winner := none, lastAction := none }

/-- The engine over gsAI whose recorded wild-color choice is blue — the
wild on top was played with blue chosen. -/
def engAI : Engine :=
  { gs := gsAI, selectedWildColor := some Color.blue, config := cfg2,
    rand := zeroRand, shuffles := 0, now := 0 }

/-- A fixed AI randomness draw. -/
def rnd0 : AIRandom := { pick := 0, wildColorIx := 0, delayJitter := 0 }

/-- A wild card in player 0's hand. -/
def wildInHand : Card := { id := 30, color := Color.wild, value := CardValue.wild }

/-- A playing state where the current player holds a wild card. -/
def gsW : GameState :=
  { phase := Phase.playing,
    players := [{ id := 0, hand := [wildInHand, blue3], hasCalledUno := false },
                { id := 1, hand := [blue4], hasCalledUno := false }],
    currentPlayerIndex := 0, direction := 1,
    drawPile := [cardA, cardB], discardPile := [redTop],
    pendingAction := none, customRules := [], silenceMode := false,
    stackedDrawAmount := 0, turnStartTime := 0, winner := none, lastAction := none }

/-- The client engine over gsW. -/
def engW : Engine :=
  { gs := gsW, selectedWildColor := none, config := cfg2,
    rand := zeroRand, shuffles := 0, now := 0 }

/-- play_card of the wild with NO color supplied. -/
def wildNoColorAction : GameAction :=
  { type := ActionType.play_card, playerId := 0, cardId := some 30 }

/-- The matching server state for gsW. -/
def srvW : ServerState :=
  { phase := Phase.playing, players := gsW.players, currentPlayerIndex := 0,
    direction := 1, drawPile := [cardA, cardB], discardPile := [redTop],
    pendingAction := none, customRules := [], silenceMode := false,
    stackedDrawAmount := 0, turnStartTime := 0, winner := none,
    selectedWildColor := none, shuffles := 0 }

/-- The server state after the wild is played with no color. -/
def srvW1 : ServerState := serverHandleAction fullRules zeroRand 0 srvW wildNoColorAction

/-- The follow-up color choice. -/
def selGreenAction : GameAction :=
  { type := ActionType.select_color, playerId := 0, wildColor := some Color.green }

/-- A skip card (red). -/
def skipCard : Card := { id := 40, color := Color.red, value := CardValue.skip }

/-- A reverse card (red). -/
def revCard : Card := { id := 41, color := Color.red, value := CardValue.reverse }

/-- A four-player state at index 0, direction +1 (hands are irrelevant to
the turn arithmetic of skip and reverse). -/
def gs4 : GameState :=
  { phase := Phase.playing,
    players := [{ id := 0, hand := [blue3], hasCalledUno := false },
                { id := 1, hand := [blue4], hasCalledUno := false },
                { id := 2, hand := [cardA], hasCalledUno := false },
                { id := 3, hand := [cardB], hasCalledUno := false }],
    currentPlayerIndex := 0, direction := 1,
    drawPile := [], discardPile := [redTop],
    pendingAction := none, customRules := [], silenceMode := false,
    stackedDrawAmount := 0, turnStartTime := 0, winner := none, lastAction := none }

/-- The engine over gs4. -/
def eng4 : Engine :=
  { gs := gs4, selectedWildColor := none,
    config := { playerCount := 4, enabledRules := fullRules },
    rand := zeroRand, shuffles := 0, now := 0 }

/-- The engine over the two-player state gsX (for the two-player
reverse). -/
def eng2 : Engine := engX

/-- An engine whose draw pile holds one card and whose discard pile is
the single top card, so a 3-card draw is short even after the reshuffle
attempt. -/
def engShort : Engine :=
  { gs := { gsX with drawPile := [cardA] },
    selectedWildColor := none, config := cfg2,
    rand := zeroRand, shuffles := 0, now := 0 }

/-- The decision the easy-tier AI makes from engX (no playable card, so it
draws after its base thinking delay). -/
def drawDecisionX : AIDecision :=
  { action := { type := ActionType.draw_card, playerId := 0 }, delay := 1500 }

/-- A playing state where the current player holds a playable number card
(the red 3 against the red 5 top). -/
def gsY : GameState :=
  { phase := Phase.playing,
    players := [{ id := 0, hand := [red3, blue4], hasCalledUno := false },
                { id := 1, hand := [blue3], hasCalledUno := false }],
    currentPlayerIndex := 0, direction := 1,
    drawPile := [cardA, cardB], discardPile := [redTop],
    pendingAction := none, customRules := [], silenceMode := false,
    stackedDrawAmount := 0, turnStartTime := 0, winner := none, lastAction := none }

/-- The client engine over gsY. -/
def engY : Engine :=
  { gs := gsY, selectedWildColor := none, config := cfg2,
    rand := zeroRand, shuffles := 0, now := 0 }

/-- The matching server state for gsY. -/
def srvY : ServerState :=
  { phase := Phase.playing, players := gsY.players, currentPlayerIndex := 0,
    direction := 1, drawPile := [cardA, cardB], discardPile := [redTop],
    pendingAction := none, customRules := [], silenceMode := false,
    stackedDrawAmount := 0, turnStartTime := 0, winner := none,
    selectedWildColor := none, shuffles := 0 }

/-- Player 0 plays the red 3. -/
def playRed3 : GameAction :=
  { type := ActionType.play_card, playerId := 0, cardId := some 21 }

/-- A red draw-two, held first by player 0 in the stacking scenario. -/
def d2aCard : Card := { id := 50, color := Color.red, value := CardValue.draw2 }

/-- Filler card in player 0's stacking-scenario hand. -/
def fillBlue1 : Card := { id := 51, color := Color.blue, value := CardValue.num 1 }

/-- A yellow draw-two, held first by player 1 in the stacking scenario. -/
def d2bCard : Card := { id := 52, color := Color.yellow, value := CardValue.draw2 }

/-- Filler card in player 1's stacking-scenario hand. -/
def fillGreen2 : Card := { id := 53, color := Color.green, value := CardValue.num 2 }

/-- Player 2's only card in the stacking scenario: not a draw card. -/
def plainBlue9 : Card := { id := 54, color := Color.blue, value := CardValue.num 9 }

/-- Three-player state for the draw-two stacking scenario: player 0 holds a
red draw-two matching the red discard top, player 1 can counter with a
draw-two, player 2 cannot, and the draw pile holds exactly four cards. -/
def gsS : GameState :=
  { phase := Phase.playing,
    players := [{ id := 0, hand := [d2aCard, fillBlue1], hasCalledUno := false },
                { id := 1, hand := [d2bCard, fillGreen2], hasCalledUno := false },
                { id := 2, hand := [plainBlue9], hasCalledUno := false }],
    currentPlayerIndex := 0, direction := 1,
    drawPile := [cardA, cardB, blue3, blue4], discardPile := [redTop],
    pendingAction := none, customRules := [], silenceMode := false,
    stackedDrawAmount := 0, turnStartTime := 0, winner := none, lastAction := none }

/-- Client engine over `gsS` with all rules enabled. -/
def engS : Engine :=
  { gs := gsS, selectedWildColor := none,
    config := { playerCount := 3, enabledRules := fullRules },
    rand := fun _ _ => 0, shuffles := 0, now := 0 }

/-- Player 0 plays the red draw-two. -/
def a1S : GameAction := { type := ActionType.play_card, playerId := 0, cardId := some 50 }

/-- Player 1 counters with the yellow draw-two. -/
def a2S : GameAction := { type := ActionType.play_card, playerId := 1, cardId := some 52 }

/-- Pointwise pre-order on player lists used to state redaction
noninterference for observer pid: corresponding players share id and
uno flag, have equally long hands, and have equal hands when the player
is the observer itself.  Everything an observer may not see is free. -/
def redactEquivPlayers (pid : Nat) : List Player → List Player → Bool
  | [], [] => true
  | p :: ps, q :: qs =>
      (p.id == q.id && p.hasCalledUno == q.hasCalledUno &&
       decide (p.hand.length = q.hand.length) &&
       (p.id != pid || p.hand == q.hand)) && redactEquivPlayers pid ps qs
  | _, _ => false

/-- Concrete server state for the redaction witness. -/
def srvR1 : ServerState :=
  { phase := Phase.playing,
    players := [{ id := 0, hand := [cardA, cardB], hasCalledUno := false },
                { id := 1, hand := [blue3], hasCalledUno := false }],
    currentPlayerIndex := 0, direction := 1,
    drawPile := [blue4], discardPile := [redTop],
    pendingAction := none, customRules := [], silenceMode := false,
    stackedDrawAmount := 0, turnStartTime := 0, winner := none,
    selectedWildColor := none, shuffles := 0 }

/-- Variant of `srvR1` differing only in player 1's hand card and in the
draw pile's contents: to observer 0 both must redact identically. -/
def srvR2 : ServerState :=
  { phase := Phase.playing,
    players := [{ id := 0, hand := [cardA, cardB], hasCalledUno := false },
                { id := 1, hand := [fillGreen2], hasCalledUno := false }],
    currentPlayerIndex := 0, direction := 1,
    drawPile := [], discardPile := [redTop],
    pendingAction := none, customRules := [], silenceMode := false,
    stackedDrawAmount := 0, turnStartTime := 0, winner := none,
    selectedWildColor := none, shuffles := 0 }

/-- A wild-draw-four held by the AI in the stacked counterexample. -/
def wd4Card : Card := { id := 60, color := Color.wild, value := CardValue.wildDraw4 }

/-- A stacked state with no wild-override disagreement at all: the discard
top is a red draw-two with two cards stacked, no wild color is recorded,
and the AI (player 1, to move) holds a wild-draw-four but no draw-two. -/
def gsK : GameState :=
  { phase := Phase.playing,
    players := [{ id := 0, hand := [cardA, cardB], hasCalledUno := false },
                { id := 1, hand := [wd4Card, fillGreen2], hasCalledUno := false }],
    currentPlayerIndex := 1, direction := 1,
    drawPile := [blue4], discardPile := [redTop, d2aCard],
    pendingAction := none, customRules := [], silenceMode := false,
    stackedDrawAmount := 2, turnStartTime := 0, winner := none, lastAction := none }

/-- Client engine over `gsK` with all rules enabled and no recorded
wild-color override. -/
def engK : Engine :=
  { gs := gsK, selectedWildColor := none,
    config := { playerCount := 2, enabledRules := fullRules },
    rand := fun _ _ => 0, shuffles := 0, now := 0 }

/-! ### Helper lemmas -/

set_option maxRecDepth 10000

theorem insertSorted_perm (le : α → α → Bool) (a : α) (l : List α) :
    (insertSorted le a l).Perm (a :: l) := by
  induction l with
  | nil => exact List.Perm.refl _
  | cons b t ih =>
    simp only [insertSorted]
    split
    · exact (ih.cons b).trans (List.Perm.swap a b t)
    · exact List.Perm.refl _

theorem sortBy_perm (le : α → α → Bool) (l : List α) : (sortBy le l).Perm l := by
  induction l with
  | nil => exact List.Perm.refl _
  | cons a t ih =>
    exact (insertSorted_perm le a (sortBy le t)).trans (ih.cons a)

theorem mem_of_head? {l : List α} {a : α} (h : l.head? = some a) : a ∈ l := by
  cases l with
  | nil => cases h
  | cons x t =>
    have hx : x = a := by simpa using h
    exact hx ▸ List.mem_cons_self x t

theorem find?_id_of_nodup (l : List Card) (c : Card)
    (hnd : (l.map Card.id).Nodup) (hm : c ∈ l) :
    l.find? (fun x => x.id == c.id) = some c := by
  induction l with
  | nil => cases hm
  | cons a t ih =>
    have hnd2 : (∀ x ∈ t, ¬ x.id = a.id) ∧ (t.map Card.id).Nodup := by simpa using hnd
    rcases List.mem_cons.mp hm with rfl | hmt
    · simp [List.find?_cons_of_pos]
    · have hne : (a.id == c.id) = false := by
        simp only [beq_eq_false_iff_ne, ne_eq]
        intro he
        exact hnd2.1 c hmt he.symm
      simp only [List.find?_cons, hne, cond_false]
      exact ih hnd2.2 hmt

theorem findIndex_key_of_nodup {α : Type} (f : α → Nat) (l : List α) (i : Nat) (x : α)
    (hnd : (l.map f).Nodup) (hx : l.get? i = some x) :
    findIndex (fun y => f y == f x) l = some i := by
  induction l generalizing i with
  | nil => cases hx
  | cons a t ih =>
    have hnd2 : (∀ y ∈ t, ¬ f y = f a) ∧ (t.map f).Nodup := by simpa using hnd
    cases i with
    | zero =>
      have ha : a = x := by simpa using hx
      subst ha
      simp [findIndex]
    | succ n =>
      have hxt : t.get? n = some x := by simpa using hx
      have hne : ¬ ((f a == f x) = true) := by
        simp only [beq_iff_eq]
        intro he
        exact hnd2.1 x (List.get?_mem hxt) he.symm
      rw [findIndex, if_neg hne, ih n hnd2.2 hxt]
      rfl

theorem pickBestCard_mem (aiId : Nat) (difficulty : AIDifficulty) (r : AIRandom)
    (vm hand : List Card) (gs : GameState) (bc : Card)
    (h : pickBestCard aiId difficulty r vm hand gs = some bc) : bc ∈ vm := by
  cases difficulty with
  | easy => exact List.get?_mem h
  | medium =>
    exact (sortBy_perm (fun a b => cardPriority b ≤ cardPriority a) vm).mem_iff.mp
      (mem_of_head? h)
  | hard =>
    exact (sortBy_perm _ vm).mem_iff.mp (mem_of_head? h)

theorem serverWildNoColor (rules : EnabledRules) (rand : Nat → Nat → Nat) (now : Nat)
    (s : ServerState) (a : GameAction) (cid i k : Nat) (player : Player) (card : Card)
    (h1 : s.phase ≠ Phase.game_over)
    (h2 : findIndex (fun p => p.id == a.playerId) s.players = some i)
    (h3 : s.players.get? i = some player)
    (h4 : a.type = ActionType.play_card)
    (h5 : a.cardId = some cid)
    (h6 : findIndex (fun c => c.id == cid) player.hand = some k)
    (h7 : player.hand.get? k = some card)
    (h8 : card.color = Color.wild)
    (h9 : a.wildColor = none)
    (h10 : s.currentPlayerIndex = i) :
    (serverHandleAction rules rand now s a).phase = Phase.color_selection ∧
    (serverHandleAction rules rand now s a).discardPile = s.discardPile ++ [card] ∧
    (serverHandleAction rules rand now s a).players.get? i =
      some { player with hand := player.hand.take k ++ player.hand.drop (k + 1) } ∧
    (serverHandleAction rules rand now s a).selectedWildColor = none := by
  have hlt : i < s.players.length := by
    rcases List.get?_eq_some.mp h3 with ⟨h, _⟩
    exact h
  simp only [serverHandleAction, h1, h2, h3, h4, h5, h6, h7, h8, h9, h10,
    beq_iff_eq, if_neg h1, Option.isNone_none]
  simp only [canPlayCard, h8, beq_self_eq_true, if_true, ite_true, ite_false,
    Bool.not_true, Bool.false_and, Bool.and_false]
  simp only [Bool.false_eq_true, if_false, ne_eq, not_true_eq_false]
  refine ⟨trivial, trivial, ?_, trivial⟩
  rw [List.get?_set_eq, h3]
  rfl

theorem serverSelectColor (rules : EnabledRules) (rand : Nat → Nat → Nat) (now : Nat)
    (t : ServerState) (a2 : GameAction) (j : Nat) (q : Player)
    (g1 : t.phase = Phase.color_selection)
    (g2 : findIndex (fun p => p.id == a2.playerId) t.players = some j)
    (g3 : t.players.get? j = some q)
    (g4 : a2.type = ActionType.select_color) :
    (serverHandleAction rules rand now t a2).phase = Phase.playing ∧
    (serverHandleAction rules rand now t a2).selectedWildColor = a2.wildColor := by
  have g3e : t.players[j]? = some q := by rw [← List.get?_eq_getElem?]; exact g3
  simp [serverHandleAction, g1, g2, g3e, g4]

theorem clientWildRejected (e : Engine) (a : GameAction) (cid : Nat)
    (player : Player) (card : Card) (top : Card)
    (k1 : e.gs.players.find? (fun p => p.id == a.playerId) = some player)
    (k2 : a.type = ActionType.play_card)
    (k3 : a.cardId = some cid)
    (k4 : player.hand.find? (fun c => c.id == cid) = some card)
    (k5 : card.color = Color.wild)
    (k6 : a.wildColor = none)
    (k7 : isCurrentPlayer e a.playerId = true)
    (k8 : e.gs.stackedDrawAmount = 0)
    (k9 : getTopCard e = some top) :
    validateAction e a = VResult.invalid "Must select a color for wild card" := by
  have hpred := List.find?_some k4
  have hmem : card ∈ player.hand := List.mem_of_find?_eq_some k4
  have hplay : isPlayable card top (getCurrentColor top e.selectedWildColor) = true := by
    simp [isPlayable, k5]
  have hvm : card ∈ getValidMoves e a.playerId := by
    simp only [getValidMoves, k1, k9, k8]
    simp only [Nat.lt_irrefl, decide_eq_false_iff_not, Bool.false_and]
    norm_num
    exact ⟨hmem, hplay⟩
  have hfind : (((getValidMoves e a.playerId).find? fun c => c.id == cid).isNone) = false := by
    rw [Option.isNone_eq_false_iff]
    exact List.find?_isSome.mpr ⟨card, hvm, hpred⟩
  simp [validateAction, k1, k2, k3, k4, k5, k6, k7, hfind]

theorem int_mod_step (a n : Int) (h0 : 0 ≤ a) (hn : a < n) : (a + n) % n = a := by
  rw [show a + n = a + n * 1 by ring, Int.add_mul_emod_self_left, Int.emod_eq_of_lt h0 hn]

theorem wrapAdvance_mod (cur : Nat) (dir : Int) (n : Nat) (hc : cur < n)
    (hd : dir = 1 ∨ dir = -1) :
    (wrapAdvance cur dir n : Int) = ((cur : Int) + dir + n) % (n : Int) := by
  have hn1 : 1 ≤ n := Nat.one_le_iff_ne_zero.mpr (by omega)
  rcases hd with h | h <;> subst h
  · by_cases hcn : cur + 1 < n
    · have h1 : wrapAdvance cur 1 n = cur + 1 := by
        simp only [wrapAdvance]
        split_ifs <;> omega
      rw [h1, int_mod_step ((cur : Int) + 1) n (by omega) (by exact_mod_cast hcn)]
      push_cast
      ring
    · have hce : cur + 1 = n := by omega
      have h1 : wrapAdvance cur 1 n = 0 := by
        simp only [wrapAdvance]
        split_ifs <;> omega
      rw [h1]
      have h2 : ((cur : Int) + 1 + n) = 0 + (n : Int) * 2 := by
        have h3 : ((cur : Int) + 1) = (n : Int) := by exact_mod_cast hce
        rw [h3]; ring
      rw [h2, Int.add_mul_emod_self_left]
      simp
  · by_cases hc0 : cur = 0
    · subst hc0
      have h1 : wrapAdvance 0 (-1) n = n - 1 := by
        simp only [wrapAdvance]
        split_ifs <;> omega
      rw [h1]
      have h2 : ((0 : Nat) : Int) + -1 + n = ((n : Int) - 1) + 0 := by ring
      rw [h2, show ((n : Int) - 1) + 0 = (n : Int) - 1 by ring,
        Int.emod_eq_of_lt (by omega) (by omega)]
      omega
    · have h1 : wrapAdvance cur (-1) n = cur - 1 := by
        simp only [wrapAdvance]
        split_ifs <;> omega
      rw [h1]
      have h2 : ((cur : Int) + -1 + n) = ((cur : Int) - 1) + n := by ring
      rw [h2, int_mod_step ((cur : Int) - 1) n (by omega) (by omega)]
      omega

theorem advanceTurn_core (e : Engine) :
    (advanceTurn e).gs.currentPlayerIndex =
      wrapAdvance e.gs.currentPlayerIndex e.gs.direction e.gs.players.length := rfl

theorem wrapAdvance_eq_modAdvance (cur : Nat) (dir : Int) (n : Nat) (hc : cur < n)
    (hd : dir = 1 ∨ dir = -1) : wrapAdvance cur dir n = modAdvance cur dir n := by
  have h := wrapAdvance_mod cur dir n hc hd
  rw [modAdvance, ← h, Int.toNat_natCast]

theorem wrapAdvance_ne (cur : Nat) (dir : Int) (n : Nat) (h2 : 2 ≤ n) (hc : cur < n)
    (hd : dir = 1 ∨ dir = -1) : wrapAdvance cur dir n ≠ cur := by
  rcases hd with h | h <;> subst h <;>
    simp only [wrapAdvance] <;> split_ifs <;> omega

theorem set_get_self (l : List α) (j : Nat) (x : α) (h : l.get? j = some x) :
    l.set j x = l := by
  induction l generalizing j with
  | nil => cases h
  | cons a t ih =>
    cases j with
    | zero =>
      have : a = x := by simpa using h
      simp [this]
    | succ m =>
      have ht : t.get? m = some x := by simpa using h
      simp [ih m ht]

theorem map_set_of_key (f : α → β) (l : List α) (j : Nat) (x y : α)
    (hget : l.get? j = some y) (hf : f x = f y) :
    (l.set j x).map f = l.map f := by
  rw [List.map_set]
  apply set_get_self
  rw [List.get?_map, hget]
  simp [hf]

theorem removal_nonempty (l : List Card) (k : Nat) (hk : k < l.length)
    (hlen : 2 ≤ l.length) :
    (l.take k ++ l.drop (k + 1)).isEmpty = false := by
  rw [List.isEmpty_eq_false]
  intro hcon
  have hlen2 := congrArg List.length hcon
  rw [List.length_append, List.length_take, List.length_drop] at hlen2
  have hmin : min k l.length = k := Nat.min_eq_left (Nat.le_of_lt hk)
  rw [hmin] at hlen2
  simp at hlen2
  omega


theorem stackFirstPlay (e : Engine) (a1 : GameAction)
    (cid1 i j k1 : Nat) (p q : Player) (c1 : Card)
    (s1 : e.config.enabledRules.stackDraw = true)
    (s3 : e.gs.stackedDrawAmount = 0)
    (s6 : 2 ≤ e.gs.players.length)
    (s5 : e.gs.direction = 1 ∨ e.gs.direction = -1)
    (p1 : a1.type = ActionType.play_card) (p2 : a1.cardId = some cid1)
    (p3 : findIndex (fun pl => pl.id == a1.playerId) e.gs.players = some i)
    (p4 : e.gs.players.get? i = some p)
    (p5 : findIndex (fun c => c.id == cid1) p.hand = some k1)
    (p6 : p.hand.get? k1 = some c1)
    (p7 : c1.value = CardValue.draw2)
    (p8 : e.gs.currentPlayerIndex = i)
    (p9 : 2 ≤ p.hand.length)
    (pc : c1.color ≠ Color.wild)
    (pv : validateAction e a1 = VResult.valid)
    (j1 : wrapAdvance i e.gs.direction e.gs.players.length = j)
    (j2 : e.gs.players.get? j = some q)
    (jc : q.hand.any (fun c => c.value == CardValue.draw2) = true) :
    (dispatch e a1).1 =
      { e with
          selectedWildColor := none,
          gs := { e.gs with
            players := e.gs.players.set i (removeCardAt p k1),
            discardPile := e.gs.discardPile ++ [c1],
            stackedDrawAmount := 2,
            currentPlayerIndex := j,
            turnStartTime := e.now,
            lastAction := some a1 } } := by
  have hk1 : k1 < p.hand.length := by
    rcases List.get?_eq_some.mp p6 with ⟨h, _⟩
    exact h
  have hi : i < e.gs.players.length := by
    rcases List.get?_eq_some.mp p4 with ⟨h, _⟩
    exact h
  have hne : (p.hand.take k1 ++ p.hand.drop (k1 + 1)).isEmpty = false :=
    removal_nonempty p.hand k1 hk1 p9
  have hjne : j ≠ i := by
    rw [← j1, ← p8]
    exact wrapAdvance_ne e.gs.currentPlayerIndex e.gs.direction e.gs.players.length
      s6 (p8 ▸ hi) s5
  have hwc : (c1.color == Color.wild) = false := by
    simpa [beq_eq_false_iff_ne] using pc
  have hdrw : isDrawCard c1 = true := by simp [isDrawCard, p7]
  have hgetj : (e.gs.players.set i (removeCardAt p k1)).get? j = some q := by
    rw [List.get?_set_ne _ _ (fun h => hjne h.symm), j2]
  simp only [dispatch, pv, applyAction, p1, handlePlayCard, p2, p3, p4, p5, p6,
    hne, Bool.false_eq_true, if_false, hwc, Bool.false_and]
  simp only [applyCardEffects, hdrw, if_true, s1, ite_true, getDrawAmount, p7,
    beq_self_eq_true, s3, advanceTurn]
  simp only [List.length_set, p8, j1]
  rw [show ((e.gs.players.set i (removeCardAt p k1)).get? j) = some q from hgetj]
  simp only [p7, beq_self_eq_true, if_true, ite_true, jc]


theorem stackSecondPlay (e : Engine) (a2 : GameAction)
    (cid2 j r k2 : Nat) (q rp : Player) (c2 : Card)
    (s1 : e.config.enabledRules.stackDraw = true)
    (t2 : e.gs.stackedDrawAmount = 2)
    (q1 : a2.type = ActionType.play_card) (q2 : a2.cardId = some cid2)
    (q3 : findIndex (fun pl => pl.id == a2.playerId) e.gs.players = some j)
    (q4 : e.gs.players.get? j = some q)
    (q5 : findIndex (fun c => c.id == cid2) q.hand = some k2)
    (q6 : q.hand.get? k2 = some c2)
    (q7 : c2.value = CardValue.draw2)
    (q8 : e.gs.currentPlayerIndex = j)
    (q9 : 2 ≤ q.hand.length)
    (qc : c2.color ≠ Color.wild)
    (qv : validateAction e a2 = VResult.valid)
    (r1 : wrapAdvance j e.gs.direction e.gs.players.length = r)
    (r2 : (e.gs.players.set j (removeCardAt q k2)).get? r = some rp)
    (rc : rp.hand.any (fun c => c.value == CardValue.draw2) = false)
    (rnodup : (e.gs.players.map Player.id).Nodup)
    (rd : 4 ≤ e.gs.drawPile.length) :
    (dispatch e a2).1.gs.stackedDrawAmount = 0 ∧
    (dispatch e a2).1.gs.players.get? r =
      some { rp with hand := rp.hand ++ e.gs.drawPile.take 4 } ∧
    (dispatch e a2).1.gs.drawPile = e.gs.drawPile.drop 4 ∧
    (dispatch e a2).1.gs.currentPlayerIndex =
      wrapAdvance r e.gs.direction e.gs.players.length := by
  have hk2 : k2 < q.hand.length := by
    rcases List.get?_eq_some.mp q6 with ⟨h, _⟩
    exact h
  have hne : (q.hand.take k2 ++ q.hand.drop (k2 + 1)).isEmpty = false :=
    removal_nonempty q.hand k2 hk2 q9
  have hwc : (c2.color == Color.wild) = false := by
    simpa [beq_eq_false_iff_ne] using qc
  have hdrw : isDrawCard c2 = true := by simp [isDrawCard, q7]
  have hmid : (e.gs.players.set j (removeCardAt q k2)).map Player.id =
      e.gs.players.map Player.id :=
    map_set_of_key Player.id e.gs.players j (removeCardAt q k2) q q4 rfl
  have hfr : findIndex (fun pl => pl.id == rp.id)
      (e.gs.players.set j (removeCardAt q k2)) = some r :=
    findIndex_key_of_nodup Player.id _ r rp (by rw [hmid]; exact rnodup) r2
  have hpile : (e.gs.drawPile.length < 4) = False := by
    simp only [eq_iff_iff, iff_false, not_lt]
    exact rd
  simp only [dispatch, qv, applyAction, q1, handlePlayCard, q2, q3, q4, q5, q6,
    hne, Bool.false_eq_true, if_false, hwc, Bool.false_and]
  simp only [applyCardEffects, hdrw, if_true, s1, ite_true, getDrawAmount, q7,
    beq_self_eq_true, t2, advanceTurn]
  simp only [List.length_set, q8, r1]
  rw [show ((e.gs.players.set j (removeCardAt q k2)).get? r) = some rp from r2]
  simp only [q7, beq_self_eq_true, if_true, ite_true, rc, Bool.false_eq_true, if_false,
    forceDrawCards, hfr]
  rw [show ((e.gs.players.set j (removeCardAt q k2)).get? r) = some rp from r2]
  simp only [hpile, if_false, drawCards, List.length_set]
  refine ⟨trivial, ?_, trivial, trivial⟩
  rw [List.get?_set_eq, r2]
  rfl


theorem stackSecondPlayCounter (e : Engine) (a2 : GameAction)
    (cid2 j r k2 : Nat) (q rp : Player) (c2 : Card)
    (s1 : e.config.enabledRules.stackDraw = true)
    (t2 : e.gs.stackedDrawAmount = 2)
    (q1 : a2.type = ActionType.play_card) (q2 : a2.cardId = some cid2)
    (q3 : findIndex (fun pl => pl.id == a2.playerId) e.gs.players = some j)
    (q4 : e.gs.players.get? j = some q)
    (q5 : findIndex (fun c => c.id == cid2) q.hand = some k2)
    (q6 : q.hand.get? k2 = some c2)
    (q7 : c2.value = CardValue.draw2)
    (q8 : e.gs.currentPlayerIndex = j)
    (q9 : 2 ≤ q.hand.length)
    (qc : c2.color ≠ Color.wild)
    (qv : validateAction e a2 = VResult.valid)
    (r1 : wrapAdvance j e.gs.direction e.gs.players.length = r)
    (r2 : (e.gs.players.set j (removeCardAt q k2)).get? r = some rp)
    (rc : rp.hand.any (fun c => c.value == CardValue.draw2) = true) :
    (dispatch e a2).1.gs.stackedDrawAmount = 4 ∧
    (dispatch e a2).1.gs.currentPlayerIndex = r ∧
    (dispatch e a2).1.gs.players = e.gs.players.set j (removeCardAt q k2) ∧
    (dispatch e a2).1.gs.drawPile = e.gs.drawPile := by
  have hk2 : k2 < q.hand.length := by
    rcases List.get?_eq_some.mp q6 with ⟨h, _⟩
    exact h
  have hne : (q.hand.take k2 ++ q.hand.drop (k2 + 1)).isEmpty = false :=
    removal_nonempty q.hand k2 hk2 q9
  have hwc : (c2.color == Color.wild) = false := by
    simpa [beq_eq_false_iff_ne] using qc
  have hdrw : isDrawCard c2 = true := by simp [isDrawCard, q7]
  simp only [dispatch, qv, applyAction, q1, handlePlayCard, q2, q3, q4, q5, q6,
    hne, Bool.false_eq_true, if_false, hwc, Bool.false_and]
  simp only [applyCardEffects, hdrw, if_true, s1, ite_true, getDrawAmount, q7,
    beq_self_eq_true, t2, advanceTurn]
  simp only [List.length_set, q8, r1]
  rw [show ((e.gs.players.set j (removeCardAt q k2)).get? r) = some rp from r2]
  simp only [q7, beq_self_eq_true, if_true, ite_true, rc]
  exact ⟨trivial, trivial, trivial, trivial⟩



theorem map_const_replicate (l : List α) (b : β) :
    l.map (fun _ => b) = List.replicate l.length b := by
  induction l with
  | nil => rfl
  | cons a t ih => simp [List.replicate_succ, ih]

theorem redactPlayersMap (pid : Nat) : ∀ (ps qs : List Player),
    redactEquivPlayers pid ps qs = true →
    ps.map (fun p => if p.id == pid then p
      else { p with hand := p.hand.map fun _ => hiddenCard }) =
    qs.map (fun p => if p.id == pid then p
      else { p with hand := p.hand.map fun _ => hiddenCard }) := by
  intro ps
  induction ps with
  | nil =>
    intro qs h
    cases qs with
    | nil => rfl
    | cons q qs => simp [redactEquivPlayers] at h
  | cons p ps ih =>
    intro qs h
    cases qs with
    | nil => simp [redactEquivPlayers] at h
    | cons q qs =>
      simp only [redactEquivPlayers, Bool.and_eq_true, beq_iff_eq,
        decide_eq_true_eq, Bool.or_eq_true, bne_iff_ne, ne_eq,
        beq_eq_false_iff_ne] at h
      obtain ⟨⟨⟨⟨hid, huno⟩, hlen⟩, hcond⟩, hrest⟩ := h
      have htail := ih qs (by
        have := hrest
        simpa [redactEquivPlayers] using this)
      simp only [List.map_cons, htail]
      congr 1
      by_cases hp : p.id == pid
      · have hq : q.id == pid := by
          rw [← hid] at *
          exact hp
        have hhand : p.hand = q.hand := by
          rcases hcond with hne | heq
          · exact absurd (by simpa using hp) hne
          · exact heq
        simp only [hp, hq, if_true]
        cases p; cases q
        simp_all
      · have hq : (q.id == pid) = false := by
          rw [← hid]
          simpa using hp
        simp only [hp, hq]
        simp only [Bool.false_eq_true, if_false]
        cases p; cases q
        simp only [map_const_replicate]
        simp_all


/-! ### Claim theorems -/

/-- C1 (code_bug evidence).  Deck conservation is violated by a reachable
run: from the freshly dealt two-player session (108 cards), the accepted
sequence request_card(p0 asks p1), offer_card(p1 offers the id 999, which
is in nobody's hand — nothing validates it), accept_offer(p0) leaves 114
card slots: handleAcceptOffer slices the offerer's hand with the -1
produced by findIndex, which duplicates all but the last card of that
hand instead of transferring one card. -/
theorem C1_conservation_violated :
    totalCards sessionStart.gs = 108 ∧ totalCards afterAccept.gs = 114 := by
  constructor
  · decide
  · decide

/-- C4 (confirmed).  A single turn advance realizes
(current + direction + playerCount) mod playerCount for both directions
and every player count the index fits in; concretely, from index 0 with
direction +1 and 4 players a skip card moves the index to 2, a reverse
flips the direction and advances by one (index 3), and with exactly 2
players a reverse advances by two, back to the same player, acting as a
skip. -/
theorem C4_turn_advance :
    (∀ e : Engine,
      e.gs.currentPlayerIndex < e.gs.players.length →
      2 ≤ e.gs.players.length →
      (e.gs.direction = 1 ∨ e.gs.direction = -1) →
      ((advanceTurn e).gs.currentPlayerIndex : Int) =
        ((e.gs.currentPlayerIndex : Int) + e.gs.direction + e.gs.players.length) %
          (e.gs.players.length : Int)) ∧
    (applyCardEffects eng4 skipCard 0).gs.currentPlayerIndex = 2 ∧
    ((applyCardEffects eng4 revCard 0).gs.direction = -1 ∧
      (applyCardEffects eng4 revCard 0).gs.currentPlayerIndex = 3) ∧
    ((applyCardEffects eng2 revCard 0).gs.currentPlayerIndex = 0 ∧
      (applyCardEffects eng2 revCard 0).gs.direction = -1) := by
  refine ⟨?_, by decide, ⟨by decide, by decide⟩, by decide, by decide⟩
  intro e hc _hn hd
  rw [advanceTurn_core, wrapAdvance_mod e.gs.currentPlayerIndex e.gs.direction
    e.gs.players.length hc hd]

/-- Witness for C4: the general formula applied to the concrete 4-player
engine eng4 (index 0, direction +1): the advanced index is
(0 + 1 + 4) % 4 = 1. -/
theorem C4_turn_advance_witness :
    ((advanceTurn eng4).gs.currentPlayerIndex : Int) =
      ((eng4.gs.currentPlayerIndex : Int) + eng4.gs.direction + eng4.gs.players.length) %
        (eng4.gs.players.length : Int) :=
  C4_turn_advance.1 eng4 (by decide) (by decide) (Or.inl (by decide))

/-- C5 (confirmed).  Whenever validation fails, dispatch leaves the engine
— the whole GameState, the selected wild color, every field — unchanged
and reports the structured reason alongside the rejected action through
the action_rejected event; no other mutation happens. -/
theorem C5_rejection_atomic :
    ∀ (e : Engine) (a : GameAction) (reason : String),
      validateAction e a = VResult.invalid reason →
      dispatch e a = (e, [GameEvent.actionRejected a reason]) := by
  intro e a reason h
  simp [dispatch, h]

/-- Witness for C5: playing a wild without choosing a color is rejected
and the engine value is returned untouched with the action_rejected
event. -/
theorem C5_rejection_atomic_witness :
    dispatch engW wildNoColorAction =
      (engW, [GameEvent.actionRejected wildNoColorAction
        "Must select a color for wild card"]) :=
  C5_rejection_atomic engW wildNoColorAction
    "Must select a color for wild card" (by decide)

/-- C8 counterexample.  drawCards does not fail on exhaustion: drawing 2
from a 1-card pile returns normally with a single card (its return type
has no error channel at all), and at the engine level a 3-card forced
draw against a 1-card pile with only the protected discard top left
silently grows the hand by 1, not 3, with no InsufficientCards signal. -/
theorem C8_draw_never_fails :
    drawCards [cardA] 2 = ([cardA], []) ∧
    (drawCards [cardA] 2).1.length = 1 ∧
    ((forceDrawCards engShort 0 3).gs.players.map fun p => p.hand.length) = [2, 1] ∧
    (forceDrawCards engShort 0 3).gs.drawPile = [] := by
  refine ⟨by decide, by decide, by decide, by decide⟩

/-- C8 (corrected).  What the code actually does: drawCards always
returns the first n elements of the pile — take n and drop n — and when
the pile is short it silently returns min n (pile length) cards rather
than failing. -/
theorem C8_draw_take_drop :
    ∀ (deck : List Card) (n : Nat),
      drawCards deck n = (deck.take n, deck.drop n) ∧
      (drawCards deck n).1.length = min n deck.length :=
  fun deck n => ⟨rfl, List.length_take n deck⟩

/-- C10 (confirmed).  getCurrentColor returns the supplied override only
for a wild top, the top's own color otherwise, and defaults to red for a
wild top with no override — the Option.getD red closed form. -/
theorem C10_current_color :
    ∀ (top : Card) (sel : Option Color),
      getCurrentColor top sel =
        if top.color = Color.wild then sel.getD Color.red else top.color := by
  intro top sel
  cases h : top.color <;> cases sel <;> simp [getCurrentColor, h]

/-- C2 counterexample.  The same accepted action from matched client and
server states produces different states: from the matched pair
engX / srvX (draw pile [cardA, cardB]), the current player's draw_card —
valid on the client, processed by the server — gives the client hand
cardA (the pile's FRONT) and the server hand cardB (the pile's BACK), so
the two copies of the state machine diverge on hands and piles. -/
theorem C2_client_server_diverge :
    validateAction engX drawAction = VResult.valid ∧
    ((dispatch engX drawAction).1.gs.players.map Player.hand) =
      [[blue3, cardA], [blue4]] ∧
    ((serverHandleAction fullRules zeroRand 0 srvX drawAction).players.map Player.hand) =
      [[blue3, cardB], [blue4]] ∧
    clientCore ((dispatch engX drawAction).1.gs) ≠
      serverCore (serverHandleAction fullRules zeroRand 0 srvX drawAction) := by
  refine ⟨by decide, by decide, by decide, by decide⟩

/-- C2 (corrected).  The equivalence that does hold: for matched client
and server states (same phase, players, index, direction, piles and
accumulator, same rules), an in-turn play of a non-wild number card that
both sides accept produces the same core state — same phase, current
player index, direction, per-player hands, both piles, and stacked-draw
accumulator — on both engines, covering the plain-advance, win,
silence-7, custom-rule-0 and slap-5 outcomes. -/
theorem C2_numeric_play_equiv (e : Engine) (s : ServerState) (a : GameAction)
    (rand : Nat → Nat → Nat) (now : Nat) (cid i k n : Nat) (player : Player) (card : Card)
    (m1 : e.gs.phase = s.phase)
    (m2 : e.gs.players = s.players)
    (m3 : e.gs.currentPlayerIndex = s.currentPlayerIndex)
    (m4 : e.gs.direction = s.direction)
    (m5 : e.gs.drawPile = s.drawPile)
    (m6 : e.gs.discardPile = s.discardPile)
    (m7 : e.gs.stackedDrawAmount = s.stackedDrawAmount)
    (a1 : a.type = ActionType.play_card)
    (a2 : a.cardId = some cid)
    (a3 : findIndex (fun p => p.id == a.playerId) s.players = some i)
    (a4 : s.players.get? i = some player)
    (a5 : findIndex (fun c => c.id == cid) player.hand = some k)
    (a6 : player.hand.get? k = some card)
    (a7 : card.value = CardValue.num n)
    (a8 : s.currentPlayerIndex = i)
    (a9 : s.phase ≠ Phase.game_over)
    (a10 : canPlayCard s card = true ∨ s.stackedDrawAmount ≠ 0)
    (a11 : validateAction e a = VResult.valid)
    (a12 : card.color ≠ Color.wild)
    (hdir : s.direction = 1 ∨ s.direction = -1) :
    clientCore ((dispatch e a).1.gs) =
      serverCore (serverHandleAction e.config.enabledRules rand now s a) := by
  have hfC : findIndex (fun p => p.id == a.playerId) e.gs.players = some i := by
    rw [m2]; exact a3
  have hgC : e.gs.players.get? i = some player := by rw [m2]; exact a4
  have hlt : i < s.players.length := by
    rcases List.get?_eq_some.mp a4 with ⟨h, _⟩
    exact h
  have ha9 : (s.phase == Phase.game_over) = false := by
    simpa [beq_eq_false_iff_ne] using a9
  have hguard : (!canPlayCard s card && (s.stackedDrawAmount == 0)) = false := by
    rcases a10 with h | h
    · simp [h]
    · simp [beq_eq_false_iff_ne.mpr h]
  have hwildF : (card.color == Color.wild) = false := by
    simpa [beq_eq_false_iff_ne] using a12
  simp only [dispatch, a11, applyAction, a1, handlePlayCard, a2, hfC, hgC, a5, a6]
  simp only [serverHandleAction, ha9, Bool.false_eq_true, if_false, a3, a4, a1, a2,
    a5, a6, a8, ne_eq, not_true_eq_false, if_false, hguard, hwildF]
  have hdrw : isDrawCard card = false := by simp [isDrawCard, a7]
  have hskp : isSkipCard card = false := by simp [isSkipCard, a7]
  have hrev : isReverseCard card = false := by simp [isReverseCard, a7]
  have hadv : wrapAdvance i s.direction s.players.length =
      modAdvance i s.direction s.players.length :=
    wrapAdvance_eq_modAdvance _ _ _ hlt hdir
  by_cases hwin : (List.take k player.hand ++ List.drop (k + 1) player.hand).isEmpty = true
  · simp only [hwin, if_true, ite_true]
    simp [clientCore, serverCore, m2, m3, m4, m5, m6, m7]
    exact ⟨a8, rfl⟩
  · simp only [Bool.not_eq_true] at hwin
    simp only [hwin, Bool.false_eq_true, if_false, ite_false]
    by_cases h7 : n = 7
    · subst h7
      simp only [applyCardEffects, hdrw, hskp, hrev, Bool.false_eq_true, if_false,
        serverApplyCardEffects, a7]
      norm_num
      by_cases hs : e.config.enabledRules.silence = true
      · simp only [hs, if_true, ite_true]
        simp [clientCore, serverCore, advanceTurn, nextPlayer, nextPlayerFrom,
          m1, m2, m3, m4, m5, m6, m7, a8, List.length_set, removeCardAt, hadv]
      · simp only [Bool.not_eq_true] at hs
        simp only [hs, Bool.false_eq_true, if_false, ite_false]
        simp [clientCore, serverCore, advanceTurn, nextPlayer, nextPlayerFrom,
          m1, m2, m3, m4, m5, m6, m7, a8, List.length_set, removeCardAt, hadv]
    · have hv7 : (CardValue.num n == CardValue.num 7) = false := by
        simp [h7]
      by_cases h0 : n = 0
      · subst h0
        simp only [applyCardEffects, hdrw, hskp, hrev, Bool.false_eq_true, if_false,
          serverApplyCardEffects, a7, hv7, Bool.and_false]
        norm_num
        by_cases hcr : e.config.enabledRules.customRule = true
        · simp only [hcr, if_true, ite_true]
          simp [clientCore, serverCore, m1, m2, m3, m4, m5, m6, m7, a8, removeCardAt]
        · simp only [Bool.not_eq_true] at hcr
          simp only [hcr, Bool.false_eq_true, if_false, ite_false]
          simp [clientCore, serverCore, advanceTurn, nextPlayer, nextPlayerFrom,
            m1, m2, m3, m4, m5, m6, m7, a8, List.length_set, removeCardAt, hadv]
      · have hv0 : (CardValue.num n == CardValue.num 0) = false := by simp [h0]
        by_cases h5 : n = 5
        · subst h5
          simp only [applyCardEffects, hdrw, hskp, hrev, Bool.false_eq_true, if_false,
            serverApplyCardEffects, a7, hv7, hv0, Bool.and_false]
          norm_num
          by_cases hsl : e.config.enabledRules.slap = true
          · simp only [hsl, if_true, ite_true]
            simp [clientCore, serverCore, m1, m2, m3, m4, m5, m6, m7, a8, removeCardAt]
          · simp only [Bool.not_eq_true] at hsl
            simp only [hsl, Bool.false_eq_true, if_false, ite_false]
            simp [clientCore, serverCore, advanceTurn, nextPlayer, nextPlayerFrom,
              m1, m2, m3, m4, m5, m6, m7, a8, List.length_set, removeCardAt, hadv]
        · have hv5 : (CardValue.num n == CardValue.num 5) = false := by simp [h5]
          simp only [applyCardEffects, hdrw, hskp, hrev, Bool.false_eq_true, if_false,
            serverApplyCardEffects, a7, hv7, hv0, hv5, Bool.and_false]
          simp [clientCore, serverCore, advanceTurn, nextPlayer, nextPlayerFrom,
            m1, m2, m3, m4, m5, m6, m7, a8, List.length_set, removeCardAt, hadv]

/-- Witness for C2: the matched pair engY / srvY, where player 0 plays a
red 3 on the red 5 — both engines produce the same core state. -/
theorem C2_numeric_play_equiv_witness :
    clientCore ((dispatch engY playRed3).1.gs) =
      serverCore (serverHandleAction engY.config.enabledRules zeroRand 0 srvY playRed3) :=
  C2_numeric_play_equiv engY srvY playRed3 zeroRand 0 21 0 0 3
    { id := 0, hand := [red3, blue4], hasCalledUno := false } red3
    (by decide) (by decide) (by decide) (by decide) (by decide) (by decide) (by decide)
    (by decide) (by decide) (by decide) (by decide) (by decide) (by decide) (by decide)
    (by decide) (by decide) (Or.inl (by decide)) (by decide) (by decide)
    (Or.inl (by decide))

/-- C6 counterexample.  Two distinct reachable violations, each at every
difficulty tier.  First, in engAI a wild sits on top of the discard with
recorded override color blue; the AI (current player, holding only a red
3) assumes the effective color is red (it calls getCurrentColor with no
override), proposes playing the red 3, and validation rejects it with
"Card cannot be played".  Second, in engK — no override in play at all —
two cards are stacked on a red draw-two top; the AI counts its
wild-draw-four as a counter and proposes playing it, but the engine's
stacking filter admits only draw-twos on a draw-two top, so validation
rejects that play with "Card cannot be played" as well. -/
theorem C6_wild_override_rejected :
    ((makeDecision 1 AIDifficulty.easy rnd0 0 gsAI).map
        (fun d => validateAction engAI d.action) =
      some (VResult.invalid "Card cannot be played") ∧
     (makeDecision 1 AIDifficulty.medium rnd0 0 gsAI).map
        (fun d => validateAction engAI d.action) =
      some (VResult.invalid "Card cannot be played") ∧
     (makeDecision 1 AIDifficulty.hard rnd0 0 gsAI).map
        (fun d => validateAction engAI d.action) =
      some (VResult.invalid "Card cannot be played")) ∧
    ((makeDecision 1 AIDifficulty.easy rnd0 0 gsK).map
        (fun d => d.action.cardId) = some (some wd4Card.id) ∧
     (makeDecision 1 AIDifficulty.easy rnd0 0 gsK).map
        (fun d => validateAction engK d.action) =
      some (VResult.invalid "Card cannot be played") ∧
     (makeDecision 1 AIDifficulty.medium rnd0 0 gsK).map
        (fun d => validateAction engK d.action) =
      some (VResult.invalid "Card cannot be played") ∧
     (makeDecision 1 AIDifficulty.hard rnd0 0 gsK).map
        (fun d => validateAction engK d.action) =
      some (VResult.invalid "Card cannot be played")) := by
  refine ⟨⟨by decide, by decide, by decide⟩, by decide, by decide, by decide, by decide⟩

/-- C6 (corrected).  The amended opponent-legality statement: for every
difficulty tier and every playing-phase state in which the AI is the
current player, there is no stacked draw pending, the hand's card ids are
distinct, and the engine's effective color agrees with the AI's
override-less view (no override recorded, or a non-wild top), every
decision makeDecision returns passes validateAction. -/
theorem C6_policy_validates (e : Engine) (aiId : Nat) (difficulty : AIDifficulty)
    (r : AIRandom) (player : Player) (top : Card) (d : AIDecision)
    (h1 : e.gs.phase = Phase.playing)
    (h2 : e.gs.players.find? (fun p => p.id == aiId) = some player)
    (h3 : isCurrentPlayer e aiId = true)
    (h4 : e.gs.stackedDrawAmount = 0)
    (h5 : getTopCard e = some top)
    (h6 : e.selectedWildColor = none ∨ top.color ≠ Color.wild)
    (h7 : (player.hand.map Card.id).Nodup)
    (hd : makeDecision aiId difficulty r e.now e.gs = some d) :
    validateAction e d.action = VResult.valid := by
  have hcol : getCurrentColor top e.selectedWildColor = getCurrentColor top none := by
    rcases h6 with h | h
    · rw [h]
    · cases htc : top.color with
      | wild => exact absurd htc h
      | red => cases e.selectedWildColor <;> simp [getCurrentColor, htc]
      | yellow => cases e.selectedWildColor <;> simp [getCurrentColor, htc]
      | green => cases e.selectedWildColor <;> simp [getCurrentColor, htc]
      | blue => cases e.selectedWildColor <;> simp [getCurrentColor, htc]
  have h3' : ((e.gs.players.get? e.gs.currentPlayerIndex).map Player.id ==
      some aiId) = true := h3
  have hdp : decidePlay aiId difficulty r e.gs player = some d := by
    rw [makeDecision, h2] at hd
    simp only [h3', Bool.not_true, Bool.false_and, Bool.false_eq_true, if_false, h1] at hd
    exact hd
  rw [decidePlay, show e.gs.discardPile.getLast? = some top from h5, h4] at hdp
  simp only [lt_self_iff_false, if_false] at hdp
  by_cases hvm : (player.hand.filter fun card =>
      isPlayable card top (getCurrentColor top none)).isEmpty
  · rw [if_pos hvm] at hdp
    have hd' : { action := { type := ActionType.draw_card, playerId := aiId },
                 delay := getThinkingDelay difficulty r : AIDecision } = d := by
      injection hdp
    subst hd'
    rw [validateAction, h2]
    rw [if_pos h3]
  · rw [if_neg hvm] at hdp
    cases hpb : pickBestCard aiId difficulty r
        (player.hand.filter fun card => isPlayable card top (getCurrentColor top none))
        player.hand e.gs with
    | none => rw [hpb] at hdp; cases hdp
    | some bc =>
      rw [hpb] at hdp
      have hd' : playCardDecision aiId difficulty r bc = d := by injection hdp
      subst hd'
      have hbcvm : bc ∈ player.hand.filter fun card =>
          isPlayable card top (getCurrentColor top none) :=
        pickBestCard_mem _ _ _ _ _ _ _ hpb
      have hbch : bc ∈ player.hand := List.mem_of_mem_filter hbcvm
      have hfindhand : player.hand.find? (fun c => c.id == bc.id) = some bc :=
        find?_id_of_nodup player.hand bc h7 hbch
      have hengvm : getValidMoves e aiId =
          player.hand.filter fun card => isPlayable card top (getCurrentColor top none) := by
        rw [getValidMoves, h2, show getTopCard e = some top from h5, h4]
        simp only [decide_eq_true_eq, lt_self_iff_false, decide_false_eq_false,
          Bool.false_and, Bool.false_eq_true, if_false]
        rw [hcol]
      have hfindvm : (((getValidMoves e aiId).find? fun c => c.id == bc.id).isNone) = false := by
        rw [Option.isNone_eq_false_iff]
        exact List.find?_isSome.mpr ⟨bc, hengvm ▸ hbcvm, by simp⟩
      simp only [playCardDecision, validateAction, h2, hfindhand, h3, hfindvm,
        Bool.not_true, Bool.false_eq_true, if_false]
      by_cases hw : bc.color = Color.wild <;> simp [hw]

/-- Witness for C6: from engX (red 5 on top, no override, its single card
unplayable) the easy AI decides to draw, and that decision validates. -/
theorem C6_policy_validates_witness :
    validateAction engX drawDecisionX.action = VResult.valid :=
  C6_policy_validates engX 0 AIDifficulty.easy rnd0
    { id := 0, hand := [blue3], hasCalledUno := false } redTop drawDecisionX
    (by decide) (by decide) (by decide) (by decide) (by decide) (Or.inl (by decide))
    (by decide) (by decide)

/-- C7 counterexample.  On the client state machine, submitting play_card
with a wild card and no color does NOT transition to color_selection: the
engine rejects the action at validation ("Must select a color for wild
card"), the dispatcher returns the engine unchanged, and the phase stays
playing. -/
theorem C7_client_rejects_wild :
    validateAction engW wildNoColorAction =
      VResult.invalid "Must select a color for wild card" ∧
    (dispatch engW wildNoColorAction).1 = engW ∧
    (dispatch engW wildNoColorAction).1.gs.phase = Phase.playing := by
  refine ⟨by decide, rfl, by decide⟩

/-- C7 (corrected).  The wild-without-color transition as the code
implements it: (1) the server moves a current player's wild play with no
color to phase color_selection, with the card already on the discard and
the color deferred; (2) a select_color in color_selection returns the
server to playing, recording the chosen color; (3) the client engine
instead rejects a current player's wild play without a color at
validation. -/
theorem C7_wild_color_flow :
    (∀ (rules : EnabledRules) (rand : Nat → Nat → Nat) (now : Nat)
       (s : ServerState) (a : GameAction) (cid i k : Nat) (player : Player) (card : Card),
      s.phase ≠ Phase.game_over →
      findIndex (fun p => p.id == a.playerId) s.players = some i →
      s.players.get? i = some player →
      a.type = ActionType.play_card →
      a.cardId = some cid →
      findIndex (fun c => c.id == cid) player.hand = some k →
      player.hand.get? k = some card →
      card.color = Color.wild →
      a.wildColor = none →
      s.currentPlayerIndex = i →
      (serverHandleAction rules rand now s a).phase = Phase.color_selection ∧
      (serverHandleAction rules rand now s a).discardPile = s.discardPile ++ [card] ∧
      (serverHandleAction rules rand now s a).players.get? i =
        some { player with hand := player.hand.take k ++ player.hand.drop (k + 1) } ∧
      (serverHandleAction rules rand now s a).selectedWildColor = none) ∧
    (∀ (rules : EnabledRules) (rand : Nat → Nat → Nat) (now : Nat)
       (t : ServerState) (a2 : GameAction) (j : Nat) (q : Player),
      t.phase = Phase.color_selection →
      findIndex (fun p => p.id == a2.playerId) t.players = some j →
      t.players.get? j = some q →
      a2.type = ActionType.select_color →
      (serverHandleAction rules rand now t a2).phase = Phase.playing ∧
      (serverHandleAction rules rand now t a2).selectedWildColor = a2.wildColor) ∧
    (∀ (e : Engine) (a : GameAction) (cid : Nat)
       (player : Player) (card : Card) (top : Card),
      e.gs.players.find? (fun p => p.id == a.playerId) = some player →
      a.type = ActionType.play_card →
      a.cardId = some cid →
      player.hand.find? (fun c => c.id == cid) = some card →
      card.color = Color.wild →
      a.wildColor = none →
      isCurrentPlayer e a.playerId = true →
      e.gs.stackedDrawAmount = 0 →
      getTopCard e = some top →
      validateAction e a = VResult.invalid "Must select a color for wild card") := by
  refine ⟨?_, ?_, ?_⟩
  · intro rules rand now s a cid i k player card h1 h2 h3 h4 h5 h6 h7 h8 h9 h10
    exact serverWildNoColor rules rand now s a cid i k player card
      h1 h2 h3 h4 h5 h6 h7 h8 h9 h10
  · intro rules rand now t a2 j q g1 g2 g3 g4
    exact serverSelectColor rules rand now t a2 j q g1 g2 g3 g4
  · intro e a cid player card top k1 k2 k3 k4 k5 k6 k7 k8 k9
    exact clientWildRejected e a cid player card top k1 k2 k3 k4 k5 k6 k7 k8 k9

/-- Witness for C7: the server flow on the concrete state srvW — playing
the wild with no color yields phase color_selection with the wild on the
discard and no recorded color. -/
theorem C7_wild_color_flow_witness :
    (serverHandleAction fullRules zeroRand 0 srvW wildNoColorAction).phase =
      Phase.color_selection ∧
    (serverHandleAction fullRules zeroRand 0 srvW wildNoColorAction).discardPile =
      srvW.discardPile ++ [wildInHand] ∧
    (serverHandleAction fullRules zeroRand 0 srvW wildNoColorAction).players.get? 0 =
      some { id := 0, hand := [blue3], hasCalledUno := false } ∧
    (serverHandleAction fullRules zeroRand 0 srvW wildNoColorAction).selectedWildColor =
      none :=
  C7_wild_color_flow.1 fullRules zeroRand 0 srvW wildNoColorAction 30 0 0
    { id := 0, hand := [wildInHand, blue3], hasCalledUno := false } wildInHand
    (by decide) (by decide) (by decide) (by decide) (by decide) (by decide) (by decide)
    (by decide) (by decide) (by decide)


/-- C3 (confirmed).  With stackDraw enabled and no stack pending, the current
player playing a draw-two sets the stacked amount to 2, moves the turn to the
next player, and touches neither the draw pile nor the phase.  If that next
player holds a draw-two and plays it, the stack grows to 4 and passes on; if
the player it passes to holds no draw-two, their next play-card turn is taken
over automatically: they draw the stacked 4 cards from the front of the draw
pile, the stack resets to 0, and the turn advances past them. -/
theorem C3_stacking (e : Engine) (a1 : GameAction)
    (cid1 i j k1 : Nat) (p q : Player) (c1 : Card)
    (s1 : e.config.enabledRules.stackDraw = true)
    (s2 : e.gs.phase = Phase.playing)
    (s3 : e.gs.stackedDrawAmount = 0)
    (s4 : (e.gs.players.map Player.id).Nodup)
    (s5 : e.gs.direction = 1 ∨ e.gs.direction = -1)
    (s6 : 2 ≤ e.gs.players.length)
    (p1 : a1.type = ActionType.play_card) (p2 : a1.cardId = some cid1)
    (p3 : findIndex (fun pl => pl.id == a1.playerId) e.gs.players = some i)
    (p4 : e.gs.players.get? i = some p)
    (p5 : findIndex (fun c => c.id == cid1) p.hand = some k1)
    (p6 : p.hand.get? k1 = some c1)
    (p7 : c1.value = CardValue.draw2)
    (p8 : e.gs.currentPlayerIndex = i)
    (p9 : 2 ≤ p.hand.length)
    (pc : c1.color ≠ Color.wild)
    (pv : validateAction e a1 = VResult.valid)
    (j1 : wrapAdvance i e.gs.direction e.gs.players.length = j)
    (j2 : e.gs.players.get? j = some q)
    (jc : q.hand.any (fun c => c.value == CardValue.draw2) = true) :
    ((dispatch e a1).1.gs.stackedDrawAmount = 2 ∧
     (dispatch e a1).1.gs.currentPlayerIndex = j ∧
     (dispatch e a1).1.gs.players = e.gs.players.set i (removeCardAt p k1) ∧
     (dispatch e a1).1.gs.drawPile = e.gs.drawPile ∧
     (dispatch e a1).1.gs.phase = e.gs.phase) ∧
    (∀ (a2 : GameAction) (cid2 k2 r : Nat) (c2 : Card) (rp : Player),
      a2.type = ActionType.play_card →
      a2.cardId = some cid2 →
      a2.playerId = q.id →
      findIndex (fun c => c.id == cid2) q.hand = some k2 →
      q.hand.get? k2 = some c2 →
      c2.value = CardValue.draw2 →
      2 ≤ q.hand.length →
      c2.color ≠ Color.wild →
      validateAction (dispatch e a1).1 a2 = VResult.valid →
      wrapAdvance j e.gs.direction e.gs.players.length = r →
      ((e.gs.players.set i (removeCardAt p k1)).set j (removeCardAt q k2)).get? r =
        some rp →
      ((rp.hand.any (fun c => c.value == CardValue.draw2) = true →
        (dispatch (dispatch e a1).1 a2).1.gs.stackedDrawAmount = 4 ∧
        (dispatch (dispatch e a1).1 a2).1.gs.currentPlayerIndex = r ∧
        (dispatch (dispatch e a1).1 a2).1.gs.drawPile = e.gs.drawPile) ∧
       (rp.hand.any (fun c => c.value == CardValue.draw2) = false →
        4 ≤ e.gs.drawPile.length →
        (dispatch (dispatch e a1).1 a2).1.gs.stackedDrawAmount = 0 ∧
        (dispatch (dispatch e a1).1 a2).1.gs.players.get? r =
          some { rp with hand := rp.hand ++ e.gs.drawPile.take 4 } ∧
        (dispatch (dispatch e a1).1 a2).1.gs.drawPile = e.gs.drawPile.drop 4 ∧
        (dispatch (dispatch e a1).1 a2).1.gs.currentPlayerIndex =
          wrapAdvance r e.gs.direction e.gs.players.length))) := by
  have hA := stackFirstPlay e a1 cid1 i j k1 p q c1 s1 s3 s6 s5 p1 p2 p3 p4 p5 p6 p7
    p8 p9 pc pv j1 j2 jc
  have hi : i < e.gs.players.length := by
    rcases List.get?_eq_some.mp p4 with ⟨h, _⟩
    exact h
  have hjne : j ≠ i := by
    rw [← j1, ← p8]
    exact wrapAdvance_ne e.gs.currentPlayerIndex e.gs.direction e.gs.players.length
      s6 (p8 ▸ hi) s5
  have hgetj : (e.gs.players.set i (removeCardAt p k1)).get? j = some q := by
    rw [List.get?_set_ne _ _ (fun h => hjne h.symm), j2]
  have hmapid : (e.gs.players.set i (removeCardAt p k1)).map Player.id =
      e.gs.players.map Player.id :=
    map_set_of_key Player.id e.gs.players i (removeCardAt p k1) p p4 rfl
  constructor
  · rw [hA]
    exact ⟨rfl, rfl, rfl, rfl, rfl⟩
  · intro a2 cid2 k2 r c2 rp q1 q2 qid q5 q6 q7 q9 qc qv r1 r2
    rw [hA] at qv
    have q3E : findIndex (fun pl => pl.id == a2.playerId)
        (e.gs.players.set i (removeCardAt p k1)) = some j := by
      rw [qid]
      exact findIndex_key_of_nodup Player.id _ j q (by rw [hmapid]; exact s4) hgetj
    constructor
    · intro rc
      have h := stackSecondPlayCounter
        { e with
            selectedWildColor := none,
            gs := { e.gs with
              players := e.gs.players.set i (removeCardAt p k1),
              discardPile := e.gs.discardPile ++ [c1],
              stackedDrawAmount := 2,
              currentPlayerIndex := j,
              turnStartTime := e.now,
              lastAction := some a1 } }
        a2 cid2 j r k2 q rp c2 s1 rfl q1 q2 q3E hgetj q5 q6 q7 rfl q9 qc qv
        (by simpa only [List.length_set] using r1) r2 rc
      rw [hA]
      exact ⟨h.1, h.2.1, h.2.2.2⟩
    · intro rc rd
      have h := stackSecondPlay
        { e with
            selectedWildColor := none,
            gs := { e.gs with
              players := e.gs.players.set i (removeCardAt p k1),
              discardPile := e.gs.discardPile ++ [c1],
              stackedDrawAmount := 2,
              currentPlayerIndex := j,
              turnStartTime := e.now,
              lastAction := some a1 } }
        a2 cid2 j r k2 q rp c2 s1 rfl q1 q2 q3E hgetj q5 q6 q7 rfl q9 qc qv
        (by simpa only [List.length_set] using r1) r2 rc
        (by rw [hmapid]; exact s4) rd
      rw [hA]
      refine ⟨h.1, h.2.1, h.2.2.1, ?_⟩
      rw [h.2.2.2]
      simp only [List.length_set]


/-- Witness for C3: in the concrete three-player scenario `engS`, player 0
plays a red draw-two and player 1 counters; player 2 holds no draw-two, so
their turn is consumed drawing the four stacked cards, the stack resets, and
the turn returns to player 0 with an empty draw pile. -/
theorem C3_stacking_witness :
    (dispatch (dispatch engS a1S).1 a2S).1.gs.stackedDrawAmount = 0 ∧
    (dispatch (dispatch engS a1S).1 a2S).1.gs.players.get? 2 =
      some { id := 2, hand := [plainBlue9, cardA, cardB, blue3, blue4],
             hasCalledUno := false } ∧
    (dispatch (dispatch engS a1S).1 a2S).1.gs.drawPile = [] ∧
    (dispatch (dispatch engS a1S).1 a2S).1.gs.currentPlayerIndex = 0 := by
  have h := (C3_stacking engS a1S 50 0 1 0
    { id := 0, hand := [d2aCard, fillBlue1], hasCalledUno := false }
    { id := 1, hand := [d2bCard, fillGreen2], hasCalledUno := false } d2aCard
    (by decide) (by decide) (by decide) (by decide) (Or.inl (by decide)) (by decide)
    (by decide) (by decide) (by decide) (by decide) (by decide) (by decide) (by decide)
    (by decide) (by decide) (by decide) (by decide) (by decide) (by decide)
    (by decide)).2 a2S 52 0 2 d2bCard
    { id := 2, hand := [plainBlue9], hasCalledUno := false }
    (by decide) (by decide) (by decide) (by decide) (by decide) (by decide) (by decide)
    (by decide) (by decide) (by decide) (by decide)
  exact h.2 (by decide) (by decide)


/-- C9 (confirmed).  Redaction noninterference.  First, the shape: the
snapshot getStateForPlayer sends to observer pid has an empty draw pile and
replaces every other player's hand by an equal-length sequence of the opaque
placeholder card, keeping the observer's own hand.  Second, noninterference:
two states agreeing on every field an observer may see — all scalar fields,
the discard pile, and, player by player, id, uno flag, hand length, plus the
observer's own hand — produce identical redacted snapshots, however their
draw piles and the other players' hand cards differ. -/
theorem C9_redaction :
    (∀ (s : ServerState) (pid : Nat),
       (getStateForPlayer s pid).drawPile = [] ∧
       (getStateForPlayer s pid).players =
         s.players.map (fun p => if p.id == pid then p
           else { p with hand := List.replicate p.hand.length hiddenCard })) ∧
    (∀ (s t : ServerState) (pid : Nat),
       s.phase = t.phase → s.currentPlayerIndex = t.currentPlayerIndex →
       s.direction = t.direction → s.discardPile = t.discardPile →
       s.pendingAction = t.pendingAction → s.customRules = t.customRules →
       s.silenceMode = t.silenceMode → s.stackedDrawAmount = t.stackedDrawAmount →
       s.turnStartTime = t.turnStartTime → s.winner = t.winner →
       s.selectedWildColor = t.selectedWildColor → s.shuffles = t.shuffles →
       redactEquivPlayers pid s.players t.players = true →
       getStateForPlayer s pid = getStateForPlayer t pid) := by
  constructor
  · intro s pid
    refine ⟨rfl, ?_⟩
    simp only [getStateForPlayer]
    apply List.map_congr_left
    intro p _
    by_cases hp : p.id == pid
    · simp [hp]
    · simp only [hp, Bool.false_eq_true, if_false, map_const_replicate]
  · intro s t pid h1 h2 h3 h4 h5 h6 h7 h8 h9 h10 h11 h12 hpl
    have hmap := redactPlayersMap pid s.players t.players hpl
    cases s; cases t
    simp only at h1 h2 h3 h4 h5 h6 h7 h8 h9 h10 h11 h12 hmap
    simp only [getStateForPlayer, hmap, h1, h2, h3, h4, h5, h6, h7, h8, h9, h10,
      h11, h12]

/-- Witness for C9: `srvR1` and `srvR2` differ in player 1's hand card and in
the draw pile, yet observer 0 receives the same snapshot from both; that
snapshot has an empty draw pile and the redacted player list. -/
theorem C9_redaction_witness :
    getStateForPlayer srvR1 0 = getStateForPlayer srvR2 0 ∧
    (getStateForPlayer srvR1 0).drawPile = [] ∧
    (getStateForPlayer srvR1 0).players =
      srvR1.players.map (fun p => if p.id == 0 then p
        else { p with hand := List.replicate p.hand.length hiddenCard }) :=
  ⟨C9_redaction.2 srvR1 srvR2 0 rfl rfl rfl rfl rfl rfl rfl rfl rfl rfl rfl rfl
    (by decide),
   (C9_redaction.1 srvR1 0).1, (C9_redaction.1 srvR1 0).2⟩


end SpicyUno
